import Mathlib

/-!
Verification development for the SPX credit-strategy decision engine.
Numeric values are modelled as exact rationals (`ℚ`), Python `None` as
`Option`, Python `float("inf")` sentinels as `none` of an `Option`, and
clock times as seconds-of-day (`ℕ`).  Session dates are modelled as
integers ordered like calendar dates (ISO strings compare equal or by
order exactly when the underlying dates do).
-/

/-! ### Python-style numeric and string formatting helpers -/

/-- Round a rational to the nearest integer, ties to even (Python `round`
and the rounding used by `format(x, '.Nf')`, idealised over exact
rationals). -/
def roundHalfEven (q : ℚ) : ℤ :=
  let f : ℤ := ⌊q⌋
  let r : ℚ := q - f
  if r < 1/2 then f
  else if 1/2 < r then f + 1
  else if f % 2 = 0 then f else f + 1

/-- Truncation toward zero, Python `int(x)` on a float. -/
def pyInt (q : ℚ) : ℤ :=
  if q < 0 then -⌊-q⌋ else ⌊q⌋

/-- Python `round(x, 4)` applied to strike keys. -/
def round4 (q : ℚ) : ℚ :=
  (roundHalfEven (q * 10000) : ℚ) / 10000

/-- Left-pad the decimal representation of a natural with zeros to `d` digits. -/
def natPad (d : ℕ) (n : ℕ) : String :=
  let s := toString n
  String.mk (List.replicate (d - s.length) '0') ++ s

/-- Python fixed-point formatting `f"{q:.df}"` (no exponent range in our inputs). -/
def fmtFixed (d : ℕ) (q : ℚ) : String :=
  let m : ℤ := roundHalfEven (q * ((10 : ℚ) ^ d))
  let a : ℕ := m.natAbs
  let base : ℕ := 10 ^ d
  (if m < 0 then "-" else "") ++ toString (a / base) ++
    (if d = 0 then "" else "." ++ natPad d (a % base))

/-- Source `_fmt`: two decimals, `"-"` for a missing value. -/
def fmtOpt (q : Option ℚ) : String :=
  match q with
  | none => "-"
  | some v => fmtFixed 2 v

/-- Source `_fmt_pct`: one decimal of `value * 100`, `"-"` for a missing value. -/
def fmtPctOpt (q : Option ℚ) : String :=
  match q with
  | none => "-"
  | some v => fmtFixed 1 (v * 100) ++ "%"

/-- Python `strftime("%H:%M:%S ET")` on a seconds-of-day clock value. -/
def fmtClock (sec : ℕ) : String :=
  natPad 2 (sec / 3600 % 24) ++ ":" ++ natPad 2 (sec / 60 % 60) ++ ":" ++
    natPad 2 (sec % 60) ++ " ET"

/-- Python `str(list_of_ints)`, e.g. `"[50, 30]"`. -/
def intListStr (l : List ℤ) : String :=
  "[" ++ String.intercalate ", " (l.map toString) ++ "]"

/-- Lowercase a string character-wise (ASCII suffices for the engine's reasons). -/
def lowerStr (s : String) : String :=
  String.mk (s.data.map Char.toLower)

/-- Uppercase a string character-wise (Python `str.upper` on ASCII input). -/
def upperStr (s : String) : String :=
  String.mk (s.data.map Char.toUpper)

/-- Python `str.strip` (ASCII whitespace). -/
def isSpaceChar (c : Char) : Bool :=
  c = ' ' || c = '\t' || c = '\n' || c = '\r'

/-- Strip leading and trailing whitespace from a string. -/
def stripStr (s : String) : String :=
  String.mk (((s.data.dropWhile isSpaceChar).reverse.dropWhile isSpaceChar).reverse)

/-- Does `needle` occur at the start of `hay`? -/
def hasPrefixChars : List Char → List Char → Bool
  | [], _ => true
  | _ :: _, [] => false
  | a :: as, b :: bs => a == b && hasPrefixChars as bs

/-- Substring test on character lists (Python `needle in hay`). -/
def containsChars (needle : List Char) : List Char → Bool
  | [] => hasPrefixChars needle []
  | c :: t => hasPrefixChars needle (c :: t) || containsChars needle t

/-- Substring test on strings. -/
def strContainsSub (needle hay : String) : Bool :=
  containsChars needle.data hay.data

/-! ### Option-chain data model (`data/tasty.py : OptionSnapshot`) -/

structure OptionSnapshot where
  optionSymbol : String
  streamerSymbol : String
  right : String
  strike : ℚ
  expiration : ℤ
  bid : Option ℚ
  ask : Option ℚ
  mid : Option ℚ
  delta : Option ℚ
  gamma : Option ℚ
  theta : Option ℚ
  iv : Option ℚ
  vega : Option ℚ
deriving DecidableEq

/-- Shorthand constructor for test chains: remaining Greeks default to `none`. -/
def mkOpt (right : String) (strike : ℚ) (bid ask mid delta : Option ℚ) : OptionSnapshot :=
  { optionSymbol := "", streamerSymbol := "", right := right, strike := strike,
    expiration := 0, bid := bid, ask := ask, mid := mid, delta := delta,
    gamma := none, theta := none, iv := none, vega := none }

/-- Checklist entry (`_criterion` in both generator modules). -/
structure Criterion where
  name : String
  passed : Bool
  detail : String
deriving DecidableEq

def criterion (name : String) (passed : Bool) (detail : String) : Criterion :=
  ⟨name, passed, detail⟩

/-- Source `_spread_ratio`; `none` models the `float("inf")` sentinel. -/
def spreadRatioQ (o : OptionSnapshot) : Option ℚ :=
  match o.bid, o.ask, o.mid with
  | some b, some a, some m =>
    if m = 0 then none
    else if a - b < 0 then none
    else some ((a - b) / m)
  | _, _, _ => none

/-- Condor `_is_liquid` (spread/mid ≤ 0.18; the `inf` sentinel always fails). -/
def isLiquidCondor (o : OptionSnapshot) : Bool :=
  match spreadRatioQ o with
  | some r => decide (r ≤ 18/100)
  | none => false

/-- Fly `_is_liquid` (spread/mid ≤ 0.12). -/
def isLiquidFly (o : OptionSnapshot) : Bool :=
  match spreadRatioQ o with
  | some r => decide (r ≤ 12/100)
  | none => false

/-- Worst-leg liquidity ratio `max(_spread_ratio(a), _spread_ratio(b))`
(`none` = infinite). -/
def maxRatioQ (a b : Option ℚ) : Option ℚ :=
  match a, b with
  | some x, some y => some (max x y)
  | _, _ => none

/-- Python dict comprehension `{(o.right, round(o.strike, 4)): o for o in options}`:
later entries override earlier ones. -/
def buildByKey (options : List OptionSnapshot) : String × ℚ → Option OptionSnapshot :=
  options.foldl (fun acc o k => if k = (o.right, round4 o.strike) then some o else acc k)
    (fun _ => none)

/-! ### Iron condor candidate generator (`strategies/condor.py`) -/

/-- Candidate payload for `find_iron_condor_candidate` (dict keys as fields).
`popPrice` depends on the normal CDF, supplied as a parameter `ncdf` of the
generator (the source computes it with `math.erf`). -/
structure CondorCandidate where
  shortPut : ℚ
  shortPutSymbol : String
  longPut : ℚ
  longPutSymbol : String
  shortCall : ℚ
  shortCallSymbol : String
  longCall : ℚ
  longCallSymbol : String
  width : ℤ
  credit : ℚ
  creditDollars : ℚ
  maxLossPoints : ℚ
  maxLossDollars : ℚ
  popDelta : ℚ
  popPrice : Option ℚ
  shortPutDelta : Option ℚ
  longPutDelta : Option ℚ
  shortCallDelta : Option ℚ
  longCallDelta : Option ℚ
  shortPutMid : ℚ
  longPutMid : ℚ
  shortCallMid : ℚ
  longCallMid : ℚ
  shortPutIv : Option ℚ
  longPutIv : Option ℚ
  shortCallIv : Option ℚ
  longCallIv : Option ℚ
  liqRatioQ : Option ℚ
  creditToMaxLoss : ℚ

structure CondorResult where
  ready : Bool
  reasons : List String
  candidate : Option CondorCandidate
  criteria : List Criterion

def condorNotReady (reasons : List String) (criteria : List Criterion) : CondorResult :=
  ⟨false, reasons, none, criteria⟩

/-- Source `_price_based_pop_condor`, parameterised over the normal CDF. -/
def priceBasedPopCondor (ncdf : ℚ → ℚ) (spot shortPut shortCall credit : ℚ)
    (sigmaPoints : Option ℚ) : Option ℚ :=
  match sigmaPoints with
  | none => none
  | some s =>
    if s = 0 then none
    else
      some (max 0 (min 1 (ncdf ((shortCall + credit - spot) / s) -
        ncdf ((shortPut - credit - spot) / s))))

/-- Short-put pool: right "P" with delta in [-0.25, -0.08]. -/
def condorPuts (options : List OptionSnapshot) : List OptionSnapshot :=
  options.filter (fun o =>
    o.right == "P" &&
      match o.delta with
      | some d => decide (-(25/100 : ℚ) ≤ d) && decide (d ≤ -(8/100 : ℚ))
      | none => false)

/-- Short-call pool: right "C" with delta in [0.08, 0.25]. -/
def condorCalls (options : List OptionSnapshot) : List OptionSnapshot :=
  options.filter (fun o =>
    o.right == "C" &&
      match o.delta with
      | some d => decide ((8/100 : ℚ) ≤ d) && decide (d ≤ (25/100 : ℚ))
      | none => false)

/-- All (short put, short call) pairs in Python loop order. -/
def condorPairs (options : List OptionSnapshot) : List (OptionSnapshot × OptionSnapshot) :=
  (condorPuts options).flatMap (fun sp => (condorCalls options).map (fun sc => (sp, sc)))

/-- Delta-symmetry filter `abs(abs(sp.delta) - sc.delta) <= 0.06` (deltas are
present for every pool member; the wildcard arm is unreachable). -/
def condorSymPairs (options : List OptionSnapshot) : List (OptionSnapshot × OptionSnapshot) :=
  (condorPairs options).filter (fun pc =>
    match pc.1.delta, pc.2.delta with
    | some dp, some dc => decide (|(|dp|) - dc| ≤ (6/100 : ℚ))
    | _, _ => false)

/-- Distance filter: both short strikes at least `1.0 * emr` from spot. -/
def condorDistPairs (options : List OptionSnapshot) (spot emr : ℚ) :
    List (OptionSnapshot × OptionSnapshot) :=
  (condorSymPairs options).filter (fun pc =>
    decide (1 * emr ≤ spot - pc.1.strike) && decide (1 * emr ≤ pc.2.strike - spot))

/-- Liquidity filter on both short legs. -/
def condorLiquidPairs (options : List OptionSnapshot) (spot emr : ℚ) :
    List (OptionSnapshot × OptionSnapshot) :=
  (condorDistPairs options spot emr).filter (fun pc =>
    isLiquidCondor pc.1 && isLiquidCondor pc.2)

/-- Inner loop body for one (short put, short call, width) triple.
`none` = incomplete structure (not counted); `some none` = counted but
failed the credit/max-loss filters; `some (some c)` = surviving candidate. -/
def condorStep (ncdf : ℚ → ℚ) (byKey : String × ℚ → Option OptionSnapshot)
    (spot : ℚ) (fullDayEm : Option ℚ) (sp sc : OptionSnapshot) (w : ℤ) :
    Option (Option CondorCandidate) :=
  match byKey ("P", round4 (sp.strike - w)), byKey ("C", round4 (sc.strike + w)) with
  | some lp, some lc =>
    match sp.mid, sc.mid, lp.mid, lc.mid with
    | some spm, some scm, some lpm, some lcm =>
      let credit := spm + scm - lpm - lcm
      if credit ≤ 0 then some none
      else if credit < (2/100 : ℚ) * w then some none
      else
        let maxLossPoints := (w : ℚ) - credit
        if maxLossPoints ≤ 0 then some none
        else
          let spd := sp.delta.getD 0
          let scd := sc.delta.getD 0
          some (some
            { shortPut := sp.strike, shortPutSymbol := sp.optionSymbol,
              longPut := lp.strike, longPutSymbol := lp.optionSymbol,
              shortCall := sc.strike, shortCallSymbol := sc.optionSymbol,
              longCall := lc.strike, longCallSymbol := lc.optionSymbol,
              width := w, credit := credit, creditDollars := credit * 100,
              maxLossPoints := maxLossPoints, maxLossDollars := maxLossPoints * 100,
              popDelta := max 0 (min 1 (1 - ((|spd| + scd) / 2))),
              popPrice := priceBasedPopCondor ncdf spot sp.strike sc.strike credit fullDayEm,
              shortPutDelta := sp.delta, longPutDelta := lp.delta,
              shortCallDelta := sc.delta, longCallDelta := lc.delta,
              shortPutMid := spm, longPutMid := lpm,
              shortCallMid := scm, longCallMid := lcm,
              shortPutIv := sp.iv, longPutIv := lp.iv,
              shortCallIv := sc.iv, longCallIv := lc.iv,
              liqRatioQ := maxRatioQ (spreadRatioQ sp) (spreadRatioQ sc),
              creditToMaxLoss := credit / maxLossPoints })
    | _, _, _, _ => none
  | _, _ => none

/-- All counted structures, in Python double-loop order (`structure_count`
is the length of this list). -/
def condorStructs (ncdf : ℚ → ℚ) (options : List OptionSnapshot) (spot : ℚ)
    (fullDayEm : Option ℚ) (emr : ℚ) (widths : List ℤ) : List (Option CondorCandidate) :=
  (condorLiquidPairs options spot emr).flatMap (fun pc =>
    widths.filterMap (condorStep ncdf (buildByKey options) spot fullDayEm pc.1 pc.2))

/-- Surviving candidates (`credit_pass_count` is the length of this list). -/
def condorCands (ncdf : ℚ → ℚ) (options : List OptionSnapshot) (spot : ℚ)
    (fullDayEm : Option ℚ) (emr : ℚ) (widths : List ℤ) : List CondorCandidate :=
  (condorStructs ncdf options spot fullDayEm emr widths).filterMap id

/-- Ranking key `(credit_to_max_loss, credit, pop_delta)`. -/
def condorKey (c : CondorCandidate) : ℚ × ℚ × ℚ :=
  (c.creditToMaxLoss, c.credit, c.popDelta)

/-- Strict lexicographic comparison of ranking keys. -/
def keyLt3 (a b : ℚ × ℚ × ℚ) : Bool :=
  decide (a.1 < b.1) ||
    (decide (a.1 = b.1) &&
      (decide (a.2.1 < b.2.1) || (decide (a.2.1 = b.2.1) && decide (a.2.2 < b.2.2))))

/-- First maximum of a stable descending sort (`sorted(..., reverse=True)[0]`):
replace the running best only on a strictly larger key. -/
def pickBest {α : Type} (key : α → ℚ × ℚ × ℚ) (h : α) (t : List α) : α :=
  t.foldl (fun best c => if keyLt3 (key best) (key c) then c else best) h

/-- The not-ready reasons of the delta-band gate. -/
def condorBandReasons (options : List OptionSnapshot) : List String :=
  (if (condorPuts options).isEmpty then ["No short put in delta band [-0.18, -0.12]."] else []) ++
    (if (condorCalls options).isEmpty then ["No short call in delta band [0.12, 0.18]."] else [])

def condorCritSpot (spot : ℚ) : Criterion :=
  criterion "SPX spot available" true ("Spot " ++ fmtFixed 2 spot)

def condorCritEmr (emr : ℚ) : Criterion :=
  criterion "EMR available" true ("EMR " ++ fmtFixed 2 emr)

def condorCritWidths (widths : List ℤ) : Criterion :=
  criterion "Condor widths selected" true ("Widths " ++ intListStr widths)

def condorCritPuts (options : List OptionSnapshot) : Criterion :=
  criterion "Short put delta in [-0.25, -0.08]" (!(condorPuts options).isEmpty)
    (toString (condorPuts options).length ++ " candidates")

def condorCritCalls (options : List OptionSnapshot) : Criterion :=
  criterion "Short call delta in [0.08, 0.25]" (!(condorCalls options).isEmpty)
    (toString (condorCalls options).length ++ " candidates")

/-- Checklist as accumulated up to the structure enumeration. -/
def condorCriteriaFull (ncdf : ℚ → ℚ) (options : List OptionSnapshot) (spot : ℚ)
    (fullDayEm : Option ℚ) (emr : ℚ) (widths : List ℤ) : List Criterion :=
  [condorCritSpot spot, condorCritEmr emr, condorCritWidths widths,
    condorCritPuts options, condorCritCalls options,
    criterion "Delta symmetry abs(|put|-call) <= 0.06" (!(condorSymPairs options).isEmpty)
      (toString (condorSymPairs options).length ++ "/" ++
        toString (condorPairs options).length ++ " pairs"),
    criterion "Short strikes >= 1.0 * EMR from spot"
      (!(condorDistPairs options spot emr).isEmpty)
      (toString (condorDistPairs options spot emr).length ++ "/" ++
        toString (condorSymPairs options).length ++ " pairs"),
    criterion "Short-leg liquidity (spread/mid <= 0.18)"
      (!(condorLiquidPairs options spot emr).isEmpty)
      (toString (condorLiquidPairs options spot emr).length ++ "/" ++
        toString (condorDistPairs options spot emr).length ++ " pairs"),
    criterion "Wing structures available for selected widths"
      (decide (0 < (condorStructs ncdf options spot fullDayEm emr widths).length))
      (toString (condorStructs ncdf options spot fullDayEm emr widths).length ++
        " valid structures"),
    criterion "Credit filter (credit >= 0.02 * width)"
      (decide (0 < (condorCands ncdf options spot fullDayEm emr widths).length))
      (toString (condorCands ncdf options spot fullDayEm emr widths).length ++
        " structures passed")]

/-- Source `find_iron_condor_candidate`, with the normal CDF as parameter. -/
def findIronCondorCandidate (ncdf : ℚ → ℚ) (options : List OptionSnapshot)
    (spot emr fullDayEm : Option ℚ) (widths : List ℤ) : CondorResult :=
  match spot with
  | none =>
    condorNotReady ["Missing SPX spot."] [criterion "SPX spot available" false "Missing spot"]
  | some sp =>
    match emr with
    | none =>
      condorNotReady ["Missing EMR."]
        [condorCritSpot sp, criterion "EMR available" false "Missing EMR"]
    | some em =>
      if em = 0 then
        condorNotReady ["Missing EMR."]
          [condorCritSpot sp, criterion "EMR available" false "Missing EMR"]
      else if widths.isEmpty then
        condorNotReady ["No condor widths selected."]
          [condorCritSpot sp, condorCritEmr em,
            criterion "Condor widths selected" false "No widths selected"]
      else if (condorPuts options).isEmpty || (condorCalls options).isEmpty then
        condorNotReady (condorBandReasons options)
          [condorCritSpot sp, condorCritEmr em, condorCritWidths widths,
            condorCritPuts options, condorCritCalls options]
      else
        match condorCands ncdf options sp fullDayEm em widths with
        | [] =>
          condorNotReady
            ["No condor candidate passed symmetry, distance, width, credit, and liquidity filters."]
            (condorCriteriaFull ncdf options sp fullDayEm em widths)
        | c :: cs =>
          { ready := true, reasons := [],
            candidate := some (pickBest condorKey c cs),
            criteria := condorCriteriaFull ncdf options sp fullDayEm em widths ++
              [criterion "Candidate selected" true "Best credit/max-loss found"] }

/-! ### Iron fly candidate generator (`strategies/fly.py`) -/

structure FlyCandidate where
  shortStrike : ℚ
  shortPutSymbol : String
  shortCallSymbol : String
  longPut : ℚ
  longPutSymbol : String
  longCall : ℚ
  longCallSymbol : String
  width : ℤ
  credit : ℚ
  creditDollars : ℚ
  maxLossPoints : ℚ
  maxLossDollars : ℚ
  popDelta : ℚ
  popPrice : Option ℚ
  shortPutDelta : ℚ
  shortCallDelta : ℚ
  longPutDelta : Option ℚ
  longCallDelta : Option ℚ
  shortPutMid : ℚ
  shortCallMid : ℚ
  longPutMid : ℚ
  longCallMid : ℚ
  shortPutIv : Option ℚ
  shortCallIv : Option ℚ
  longPutIv : Option ℚ
  longCallIv : Option ℚ
  liqRatioQ : Option ℚ
  creditToMaxLoss : ℚ

structure FlyResult where
  ready : Bool
  reasons : List String
  candidate : Option FlyCandidate
  criteria : List Criterion

def flyNotReady (reasons : List String) (criteria : List Criterion) : FlyResult :=
  ⟨false, reasons, none, criteria⟩

/-- Source `_price_based_pop_fly`, parameterised over the normal CDF. -/
def priceBasedPopFly (ncdf : ℚ → ℚ) (spot shortStrike credit : ℚ)
    (sigmaPoints : Option ℚ) : Option ℚ :=
  match sigmaPoints with
  | none => none
  | some s =>
    if s = 0 then none
    else
      some (max 0 (min 1 (ncdf ((shortStrike + credit - spot) / s) -
        ncdf ((shortStrike - credit - spot) / s))))

/-- Dict comprehension over a chain side, keeping only quotes with a positive
mid; later chain entries override earlier ones. -/
def flyByStrike (right : String) (options : List OptionSnapshot) : ℚ → Option OptionSnapshot :=
  options.foldl
    (fun acc o k =>
      if o.right == right &&
          (match o.mid with | some m => decide (0 < m) | none => false) then
        (if k = round4 o.strike then some o else acc k)
      else acc k)
    (fun _ => none)

/-- The dict's key set, in chain order with duplicates removed. -/
def flyStrikeKeys (right : String) (options : List OptionSnapshot) : List ℚ :=
  ((options.filter (fun o =>
      o.right == right &&
        (match o.mid with | some m => decide (0 < m) | none => false))).map
    (fun o => round4 o.strike)).dedup

/-- Insertion sort, ascending (Python `sorted` over a set of floats). -/
def insertAsc (x : ℚ) : List ℚ → List ℚ
  | [] => [x]
  | y :: t => if x ≤ y then x :: y :: t else y :: insertAsc x t

def sortAsc (l : List ℚ) : List ℚ :=
  l.foldr insertAsc []

/-- Sorted shared strikes of the call and put sides. -/
def flySharedStrikes (options : List OptionSnapshot) : List ℚ :=
  sortAsc ((flyStrikeKeys "C" options).filter
    (fun s => (flyStrikeKeys "P" options).contains s))

/-- Python `min(shared_strikes, key=lambda s: abs(s - spot))`: first minimum
of the ascending list. -/
def flyAtmStrike (spot : ℚ) (h : ℚ) (t : List ℚ) : ℚ :=
  t.foldl (fun best s => if |s - spot| < |best - spot| then s else best) h

/-- The fly entry gates evaluated before the chain is consulted
(time, VWAP, 15-minute range, VIX change). -/
def flyPassTime (nowSec : ℕ) : Bool :=
  decide (nowSec ≤ 13 * 3600)

def flyPassVwap (vwapDistance : Option ℚ) (em : ℚ) : Bool :=
  match vwapDistance with
  | some v => decide (v < (2/10 : ℚ) * em)
  | none => false

def flyPassRange (range15m : Option ℚ) (em : ℚ) : Bool :=
  match range15m with
  | some r => decide (r < (25/100 : ℚ) * em)
  | none => false

def flyPassVix (vixChangePct : Option ℚ) : Bool :=
  match vixChangePct with
  | some v => decide (v ≤ 3)
  | none => true

def flyGateReasons (nowSec : ℕ) (vwapDistance range15m vixChangePct : Option ℚ)
    (em : ℚ) : List String :=
  (if flyPassTime nowSec then [] else ["Iron Fly not allowed after 13:00 ET."]) ++
    (if flyPassVwap vwapDistance em then [] else ["|SPX-VWAP| must be < 0.2 * EMR for fly."]) ++
    (if flyPassRange range15m em then [] else ["15m range must be < 0.25 * EMR for fly."]) ++
    (if flyPassVix vixChangePct then [] else ["VIX change must be <= +3% for fly."])

def flyGateCriteria (nowSec : ℕ) (vwapDistance range15m vixChangePct : Option ℚ)
    (em : ℚ) : List Criterion :=
  [criterion "Entry time <= 13:00 ET" (flyPassTime nowSec) (fmtClock nowSec),
    criterion "|SPX - VWAP| < 0.2 * EMR" (flyPassVwap vwapDistance em)
      (fmtOpt vwapDistance ++ " < " ++ fmtOpt (some ((2/10 : ℚ) * em))),
    criterion "15m range < 0.25 * EMR" (flyPassRange range15m em)
      (fmtOpt range15m ++ " < " ++ fmtOpt (some ((25/100 : ℚ) * em))),
    criterion "VIX change <= +3% (if available)" (flyPassVix vixChangePct)
      (match vixChangePct with
        | none => "- (ignored)"
        | some v => (if 0 ≤ v then "+" else "") ++ fmtFixed 2 v ++ "% <= +3.00%")]

/-- Loop body for one fly width; `some c` exactly when the structure is
counted and kept (in the fly, `structure_count` equals the candidate count). -/
def flyStep (ncdf : ℚ → ℚ) (options : List OptionSnapshot) (spot : ℚ)
    (fullDayEm : Option ℚ) (atm : ℚ) (shortPut shortCall : OptionSnapshot)
    (w : ℤ) : Option FlyCandidate :=
  match flyByStrike "P" options (round4 (atm - w)), flyByStrike "C" options (round4 (atm + w)) with
  | some lp, some lc =>
    match shortPut.mid, shortCall.mid, lp.mid, lc.mid with
    | some spm, some scm, some lpm, some lcm =>
      let credit := scm + spm - lcm - lpm
      if credit ≤ 0 then none
      else
        let maxLossPoints := (w : ℚ) - credit
        if maxLossPoints ≤ 0 then none
        else
          let spd := shortPut.delta.getD (-(1/2))
          let scd := shortCall.delta.getD (1/2)
          some
            { shortStrike := atm,
              shortPutSymbol := shortPut.optionSymbol,
              shortCallSymbol := shortCall.optionSymbol,
              longPut := atm - w, longPutSymbol := lp.optionSymbol,
              longCall := atm + w, longCallSymbol := lc.optionSymbol,
              width := w, credit := credit, creditDollars := credit * 100,
              maxLossPoints := maxLossPoints, maxLossDollars := maxLossPoints * 100,
              popDelta := max 0 (min 1 (1 - ((|spd| + scd) / 2))),
              popPrice := priceBasedPopFly ncdf spot atm credit fullDayEm,
              shortPutDelta := spd, shortCallDelta := scd,
              longPutDelta := lp.delta, longCallDelta := lc.delta,
              shortPutMid := spm, shortCallMid := scm,
              longPutMid := lpm, longCallMid := lcm,
              shortPutIv := shortPut.iv, shortCallIv := shortCall.iv,
              longPutIv := lp.iv, longCallIv := lc.iv,
              liqRatioQ := maxRatioQ (spreadRatioQ shortPut) (spreadRatioQ shortCall),
              creditToMaxLoss := credit / maxLossPoints }
    | _, _, _, _ => none
  | _, _ => none

def flyCands (ncdf : ℚ → ℚ) (options : List OptionSnapshot) (spot : ℚ)
    (fullDayEm : Option ℚ) (atm : ℚ) (shortPut shortCall : OptionSnapshot)
    (widths : List ℤ) : List FlyCandidate :=
  widths.filterMap (flyStep ncdf options spot fullDayEm atm shortPut shortCall)

/-- Ranking key `(credit, credit_to_max_loss)` padded to reuse `pickBest`. -/
def flyKey (c : FlyCandidate) : ℚ × ℚ × ℚ :=
  (c.credit, c.creditToMaxLoss, 0)

/-- Source `find_iron_fly_candidate`, with the normal CDF as parameter and the
entry clock as seconds-of-day. -/
def findIronFlyCandidate (ncdf : ℚ → ℚ) (options : List OptionSnapshot)
    (spot emr fullDayEm : Option ℚ) (nowSec : ℕ)
    (range15m vwapDistance vixChangePct : Option ℚ) (widths : List ℤ) : FlyResult :=
  match spot with
  | none =>
    flyNotReady ["Missing SPX spot."] [criterion "SPX spot available" false "Missing spot"]
  | some sp =>
    match emr with
    | none =>
      flyNotReady ["Missing EMR."]
        [condorCritSpot sp, criterion "EMR available" false "Missing EMR"]
    | some em =>
      if em = 0 then
        flyNotReady ["Missing EMR."]
          [condorCritSpot sp, criterion "EMR available" false "Missing EMR"]
      else if widths.isEmpty then
        flyNotReady ["No fly widths selected."]
          [condorCritSpot sp, condorCritEmr em,
            criterion "Fly widths selected" false "No widths selected"]
      else
        let baseCrit := [condorCritSpot sp, condorCritEmr em,
          criterion "Fly widths selected" true ("Widths " ++ intListStr widths)] ++
          flyGateCriteria nowSec vwapDistance range15m vixChangePct em
        if !(flyGateReasons nowSec vwapDistance range15m vixChangePct em).isEmpty then
          flyNotReady (flyGateReasons nowSec vwapDistance range15m vixChangePct em) baseCrit
        else
          match flySharedStrikes options with
          | [] =>
            flyNotReady ["No shared strike with valid call/put mids for ATM short legs."]
              (baseCrit ++ [criterion "ATM shared strike exists" false "0 shared strikes"])
          | s0 :: srest =>
            let sharedCrit := criterion "ATM shared strike exists" true
              (toString (flySharedStrikes options).length ++ " shared strikes")
            let atm := flyAtmStrike sp s0 srest
            match flyByStrike "C" options atm, flyByStrike "P" options atm with
            | some shortCall, some shortPut =>
              let liqCrit := criterion "ATM short-leg liquidity (spread/mid <= 0.12)"
                (isLiquidFly shortCall && isLiquidFly shortPut)
                ("ratio " ++ fmtOpt (maxRatioQ (spreadRatioQ shortPut) (spreadRatioQ shortCall)))
              if !(isLiquidFly shortCall && isLiquidFly shortPut) then
                flyNotReady ["ATM short legs failed liquidity gate ((ask-bid)/mid <= 0.12)."]
                  (baseCrit ++ [sharedCrit, liqCrit])
              else
                let structCrit := criterion "Width structure and positive credit found"
                  (decide (0 < (flyCands ncdf options sp fullDayEm atm shortPut shortCall widths).length))
                  (toString (flyCands ncdf options sp fullDayEm atm shortPut shortCall widths).length ++
                    " structures passed")
                match flyCands ncdf options sp fullDayEm atm shortPut shortCall widths with
                | [] =>
                  flyNotReady ["No fly width (20/30) passed structure and pricing checks."]
                    (baseCrit ++ [sharedCrit, liqCrit, structCrit])
                | c :: cs =>
                  { ready := true, reasons := [],
                    candidate := some (pickBest flyKey c cs),
                    criteria := baseCrit ++ [sharedCrit, liqCrit, structCrit,
                      criterion "Candidate selected" true "Highest credit chosen"] }
            | _, _ =>
              -- Unreachable: the ATM strike is a shared key of both dicts.
              flyNotReady ["No shared strike with valid call/put mids for ATM short legs."]
                (baseCrit ++ [sharedCrit])

/-! ### Exit evaluation engine (`strategies/exit.py`) -/

/-- Source `build_option_lookup`: keys are `(right.upper(), round(strike, 4))`,
later chain entries override earlier ones. -/
def buildOptionLookup (options : List OptionSnapshot) : String × ℚ → Option OptionSnapshot :=
  options.foldl
    (fun acc o k => if k = (upperStr o.right, round4 o.strike) then some o else acc k)
    (fun _ => none)

/-- Source `_close_vertical_debit`: ask-minus-bid when both book sides are
present, else a mid-based estimate, clamped at zero. -/
def closeVerticalDebit (shortLeg longLeg : OptionSnapshot) : Option ℚ :=
  match shortLeg.ask, longLeg.bid with
  | some a, some b => some (max 0 (a - b))
  | _, _ =>
    match shortLeg.mid, longLeg.mid with
    | some sm, some lm => some (max 0 (sm - lm))
    | _, _ => none

/-- Source `_condor_close_debit`. -/
def condorCloseDebit (lookup : String × ℚ → Option OptionSnapshot)
    (shortPut longPut shortCall longCall : Option ℚ) : Option ℚ :=
  match shortPut, longPut, shortCall, longCall with
  | some sps, some lps, some scs, some lcs =>
    match lookup ("P", round4 sps), lookup ("P", round4 lps),
        lookup ("C", round4 scs), lookup ("C", round4 lcs) with
    | some sp, some lp, some sc, some lc =>
      match closeVerticalDebit sp lp, closeVerticalDebit sc lc with
      | some putDebit, some callDebit => some (max 0 (putDebit + callDebit))
      | _, _ => none
    | _, _, _, _ => none
  | _, _, _, _ => none

/-- Source `_fly_close_debit`. -/
def flyCloseDebit (lookup : String × ℚ → Option OptionSnapshot)
    (shortStrike longPut longCall : Option ℚ) : Option ℚ :=
  match shortStrike, longPut, longCall with
  | some sss, some lps, some lcs =>
    match lookup ("P", round4 sss), lookup ("P", round4 lps),
        lookup ("C", round4 sss), lookup ("C", round4 lcs) with
    | some sp, some lp, some sc, some lc =>
      match closeVerticalDebit sp lp, closeVerticalDebit sc lc with
      | some putDebit, some callDebit => some (max 0 (putDebit + callDebit))
      | _, _ => none
    | _, _, _, _ => none
  | _, _, _ => none

/-- Source `_credit_spread_close_debit`. -/
def creditSpreadCloseDebit (lookup : String × ℚ → Option OptionSnapshot)
    (shortRight longRight : String) (shortStrike longStrike : Option ℚ) : Option ℚ :=
  match shortStrike, longStrike with
  | some ss, some ls =>
    if !(["P", "PUT", "C", "CALL"].contains shortRight) ||
        !(["P", "PUT", "C", "CALL"].contains longRight) then none
    else
      let sRight := if shortRight.startsWith "P" then "P" else "C"
      let lRight := if longRight.startsWith "P" then "P" else "C"
      match lookup (sRight, round4 ss), lookup (lRight, round4 ls) with
      | some shortLeg, some longLeg => closeVerticalDebit shortLeg longLeg
      | _, _ => none
  | _, _ => none

/-- Source `_profit_pct` (`initial_credit in (None, 0)` yields `None`). -/
def profitPctQ (initialCredit currentDebit : Option ℚ) : Option ℚ :=
  match initialCredit with
  | none => none
  | some c =>
    if c = 0 then none
    else
      match currentDebit with
      | none => none
      | some d => some ((c - d) / c)

/-- Source `_condor_proximity_stop`. -/
def condorProximityStop (spot shortPut shortCall width : Option ℚ)
    (distanceMult : ℚ) : Bool :=
  match spot, shortPut, shortCall, width with
  | some s, some sp, some sc, some w =>
    decide (min |s - sp| |sc - s| ≤ distanceMult * w)
  | _, _, _, _ => false

/-- Source `_condor_proximity_detail`. -/
def condorProximityDetail (spot shortPut shortCall width : Option ℚ)
    (distanceMult : ℚ) : String :=
  match spot, shortPut, shortCall, width with
  | some s, some sp, some sc, some w =>
    "distance " ++ fmtFixed 2 (min |s - sp| |sc - s|) ++ " <= " ++
      fmtFixed 2 (distanceMult * w)
  | _, _, _, _ => "Insufficient data"

/-- Source `_peg_exit_condor` (15:00 ET = 54000 seconds-of-day). -/
def pegExitCondor (enablePegExit : Bool) (nowSec : ℕ) (spot shortPut shortCall : Option ℚ)
    (profitPct : Option ℚ) : Bool :=
  if !enablePegExit then false
  else if nowSec < 15 * 3600 then false
  else
    match spot, shortPut, shortCall with
    | some s, some sp, some sc =>
      let minDist := min |s - sp| |sc - s|
      let otmPct := if s = 0 then 0 else minDist / s
      decide ((3/1000 : ℚ) ≤ otmPct) &&
        (match profitPct with | some p => decide (0 < p) | none => false)
    | _, _, _ => false

/-- Source `_severity`'s stop-keyword scan over a lowercased reason. -/
def stopWords : List String := ["stop", "wing", "gamma", "range", "atr"]

def containsStopKeyword (reason : String) : Bool :=
  stopWords.any (fun w => strContainsSub w (lowerStr reason))

/-- Source `_severity`. -/
def severity (shouldExit : Bool) (reasons : List String) (profitPct : Option ℚ) : String :=
  if shouldExit then
    if reasons.any containsStopKeyword then "RED" else "AMBER"
  else
    match profitPct with
    | some p => if 0 ≤ p then "GREEN" else "AMBER"
    | none => "AMBER"

/-- Source `_next_reason_condor` (14:30 ET cutoff = 52200 seconds-of-day). -/
def nextReasonCondor (shouldExit : Bool) (reasons : List String)
    (timeInTradeMin : ℚ) (maxHoldMin : ℤ) (nowSec : ℕ) (profitPct : Option ℚ)
    (targetProfit : ℚ) : String :=
  match shouldExit, reasons with
  | true, r :: _ => r
  | _, _ =>
    let holdLeft := max 0 (pyInt ((maxHoldMin : ℚ) - timeInTradeMin))
    let untilCutoff := max 0 (pyInt ((52200 - (nowSec : ℚ)) / 60))
    match profitPct with
    | none =>
      "Waiting for live debit quote (time left " ++ toString holdLeft ++ "m, cutoff " ++
        toString untilCutoff ++ "m)"
    | some _ =>
      "Next likely: " ++ fmtFixed 0 (targetProfit * 100) ++ "% profit target (" ++
        fmtPctOpt profitPct ++ " now)"

/-- Per-strategy exit configuration; `none` fields fall back to the
`config.get(..., default)` defaults of the source. -/
structure ExitConfig where
  profitThresholdCondor : Option ℚ := none
  maxHoldCondorMin : Option ℚ := none
  condorDistanceMult : Option ℚ := none
  enableTenCentBidExit : Option Bool := none
  condorRangeExitMult : Option ℚ := none
  atrSpikePoints : Option ℚ := none
  enablePegExit : Option Bool := none

/-- Exit decision record returned by the strategy-specific evaluators. -/
structure ExitDecision where
  shouldExit : Bool
  reasons : List String
  criteria : List Criterion
  currentDebit : Option ℚ
  profitPct : Option ℚ
  timeInTradeMin : ℚ
  nextExitReason : String
  severityTag : String

/-- Source `_evaluate_condor_exit`.  Trade-dict lookups (`short_put`, …,
`initial_credit`) and the derived `time_in_trade_min` are passed as
parameters, exactly as the Python helper receives them. -/
def evaluateCondorExit (lookup : String × ℚ → Option OptionSnapshot)
    (shortPut longPut shortCall longCall width initialCredit : Option ℚ)
    (timeInTradeMin : ℚ) (nowSec : ℕ) (spot emr : Option ℚ)
    (dayRange atr1m : Option ℚ) (cfg : ExitConfig) : ExitDecision :=
  let currentDebit := condorCloseDebit lookup shortPut longPut shortCall longCall
  let profitPct := profitPctQ initialCredit currentDebit
  let targetProfit := cfg.profitThresholdCondor.getD (60/100)
  let triggerProfit :=
    match profitPct with | some p => decide (targetProfit ≤ p) | none => false
  let maxHoldMin := pyInt (cfg.maxHoldCondorMin.getD 90)
  let triggerMaxHold := decide ((maxHoldMin : ℚ) ≤ timeInTradeMin)
  let triggerTimeCutoff := decide (52200 ≤ nowSec)
  let triggerFinal30 := decide (55800 ≤ nowSec)
  let distanceMult := cfg.condorDistanceMult.getD (80/100)
  let triggerProximity := condorProximityStop spot shortPut shortCall width distanceMult
  let enableTenCent := cfg.enableTenCentBidExit.getD true
  let triggerTenCent := enableTenCent &&
    (match currentDebit with | some d => decide (d ≤ 1/10) | none => false)
  let rangeMult := cfg.condorRangeExitMult.getD (60/100)
  let triggerRange :=
    match dayRange, emr with
    | some dr, some e => !decide (e = 0) && decide (rangeMult * e < dr)
    | _, _ => false
  let atrSpikePoints := cfg.atrSpikePoints.getD 8
  let triggerAtr :=
    match atr1m with | some a => decide (atrSpikePoints < a) | none => false
  let enablePeg := cfg.enablePegExit.getD true
  let triggerPeg := pegExitCondor enablePeg nowSec spot shortPut shortCall profitPct
  let reasons :=
    (if triggerProfit then
      ["Profit target hit (" ++ fmtPctOpt profitPct ++ " >= " ++
        fmtFixed 0 (targetProfit * 100) ++ "%)."] else []) ++
    (if triggerMaxHold then
      ["Max hold reached (" ++ fmtFixed 0 timeInTradeMin ++ "m >= " ++
        toString maxHoldMin ++ "m)."] else []) ++
    (if triggerTimeCutoff then ["Reached 14:30 ET time-based exit."] else []) ++
    (if triggerFinal30 then ["Entered final 30 minutes of session (gamma risk)."] else []) ++
    (if triggerProximity then ["Spot is too close to a short strike (price-risk stop)."] else []) ++
    (if triggerTenCent then ["10-cent buyback available (Henry Schwartz style close)."] else []) ++
    (if triggerRange then ["Intraday realized range exceeded 60% of EMR."] else []) ++
    (if triggerAtr then ["ATR spike detected; risk mitigation exit."] else []) ++
    (if triggerPeg then ["Late-day peg condition: avoid picking up pennies near close."] else [])
  let shouldExit := !reasons.isEmpty
  { shouldExit := shouldExit,
    reasons := reasons,
    criteria :=
      [criterion "Live debit available" currentDebit.isSome
        ("Current debit " ++ fmtOpt currentDebit),
        criterion ("Profit capture >= " ++ fmtFixed 0 (targetProfit * 100) ++ "%")
          triggerProfit (fmtPctOpt profitPct),
        criterion ("Time in trade >= " ++ toString maxHoldMin ++ "m") triggerMaxHold
          (fmtFixed 0 timeInTradeMin ++ "m"),
        criterion "Reached 14:30 ET cutoff" triggerTimeCutoff (fmtClock nowSec),
        criterion "Final 30-minute gamma window (>=15:30 ET)" triggerFinal30 (fmtClock nowSec),
        criterion ("Spot within " ++ fmtFixed 2 distanceMult ++ " x width of short strike")
          triggerProximity (condorProximityDetail spot shortPut shortCall width distanceMult),
        criterion "10-cent buyback check enabled and debit <= 0.10" triggerTenCent
          ("Debit " ++ fmtOpt currentDebit),
        criterion ("Day range > " ++ fmtFixed 2 rangeMult ++ " x EMR") triggerRange
          (fmtOpt dayRange ++ " > " ++
            (match emr with | some e => fmtOpt (some (rangeMult * e)) | none => fmtOpt none)),
        criterion ("ATR spike > " ++ fmtFixed 1 atrSpikePoints) triggerAtr
          ("ATR " ++ fmtOpt atr1m),
        criterion "Late-day peg safeguard" triggerPeg
          (if enablePeg then "Enabled" else "Disabled")],
    currentDebit := currentDebit,
    profitPct := profitPct,
    timeInTradeMin := timeInTradeMin,
    nextExitReason :=
      nextReasonCondor shouldExit reasons timeInTradeMin maxHoldMin nowSec profitPct targetProfit,
    severityTag := severity shouldExit reasons profitPct }

/-! ### Regime confidence scorer (`scripts/spx0dte_snapshot.py`) -/

/-- Source `_confidence_ratio` (`threshold in (None, 0)` yields 0). -/
def confidenceRatio (value threshold : Option ℚ) (upperIsGood : Bool) : ℚ :=
  match value, threshold with
  | some v, some t =>
    if t = 0 then 0
    else if upperIsGood then
      (if t ≤ v then 1 else max 0 (v / t))
    else
      (if v ≤ t then 1 else max 0 (t / v))
  | _, _ => 0

/-- Band threshold `(k * emr) if emr not in (None, 0) else None`. -/
def emrBand (k : ℚ) (emr : Option ℚ) : Option ℚ :=
  match emr with
  | some e => if e = 0 then none else some (k * e)
  | none => none

/-- The CHOP in-band range component of `_regime_confidence`. -/
def chopRangeScore (range15m : Option ℚ) (emr : Option ℚ) : ℚ :=
  match range15m, emrBand (30/100) emr, emrBand (45/100) emr with
  | some r, some lower, some upper =>
    if upper = 0 then 0
    else if lower < r ∧ r ≤ upper then 1
    else if r ≤ lower then max 0 (r / lower)
    else max 0 (upper / r)
  | _, _, _ => 0

/-- Component list of `_regime_confidence` per classified regime.
`alignScore` is `_to_float(trend_alignment.get("score"))`. -/
def regimeComponents (regime : String) (emr fullDayEm range15m atr1m slope5m
    vwapDistance dayRange : Option ℚ) (volExpansionFlag : Bool)
    (alignScore : Option ℚ) : List ℚ :=
  if regime = "COMPRESSION" then
    [confidenceRatio range15m (emrBand (30/100) emr) false,
      confidenceRatio atr1m (some 6) false,
      confidenceRatio (slope5m.map (|·|)) (some (15/100)) false,
      confidenceRatio vwapDistance (emrBand (20/100) emr) false]
  else if regime = "CHOP" then
    [chopRangeScore range15m emr,
      confidenceRatio (slope5m.map (|·|)) (some (20/100)) false,
      confidenceRatio vwapDistance (emrBand (40/100) emr) false]
  else if regime = "TREND_UP" ∨ regime = "TREND_DOWN" then
    [confidenceRatio (slope5m.map (|·|)) (some (20/100)) true,
      confidenceRatio vwapDistance (emrBand (60/100) emr) false,
      confidenceRatio range15m (emrBand (60/100) emr) false,
      max 0 (min 1 (alignScore.getD 0))]
  else if regime = "EXPANSION" then
    [(if volExpansionFlag then 1 else 0),
      max 0 (min 1 (match range15m, emr with
        | some r, some e => if e = 0 then 0 else r / ((45/100) * e)
        | _, _ => 0)),
      max 0 (min 1 (match dayRange, fullDayEm with
        | some dr, some f => if f = 0 then 0 else dr / ((60/100) * f)
        | _, _ => 0))]
  else [0]

structure RegimeConfidence where
  score : ℚ
  confidencePct : ℚ
  tier : String

/-- Source `_regime_confidence`. -/
def regimeConfidence (regime : String) (emr fullDayEm range15m atr1m slope5m
    vwapDistance dayRange : Option ℚ) (volExpansionFlag : Bool)
    (alignScore : Option ℚ) : RegimeConfidence :=
  let comps := regimeComponents regime emr fullDayEm range15m atr1m slope5m
    vwapDistance dayRange volExpansionFlag alignScore
  let score := comps.sum / comps.length
  let pct := (roundHalfEven (max 0 (min 1 score) * 1000) : ℚ) / 10
  { score := max 0 (min 1 score),
    confidencePct := pct,
    tier := if 80 ≤ pct then "high" else if 60 ≤ pct then "medium" else "low" }

/-! ### Lifecycle state machine (`storage/state.py`) -/

def rolloverIntradayAutoClose : String := "INTRADAY_AUTO_CLOSE"

def rolloverPersistUntilExit : String := "PERSIST_UNTIL_EXIT"

def multiDayStrategyKeys : List String :=
  ["2_DTE_CREDIT_SPREAD", "2DTE_CREDIT_SPREAD", "TWO_DTE_CREDIT_SPREAD",
    "BROKEN_WING_PUT_BUTTERFLY", "BROKENWINGPUTBUTTERFLY", "BWB"]

/-- One pass of Python `text.replace("__", "_")` (left-to-right, non-overlapping). -/
def replaceDoubleUnderscore : List Char → List Char
  | '_' :: '_' :: rest => '_' :: replaceDoubleUnderscore rest
  | c :: rest => c :: replaceDoubleUnderscore rest
  | [] => []

def containsDoubleUnderscore : List Char → Bool
  | '_' :: '_' :: _ => true
  | _ :: rest => containsDoubleUnderscore rest
  | [] => false

/-- Fuelled `while "__" in text` loop; each pass shortens the text, so fuel
equal to the length always suffices. -/
def squeezeLoop : ℕ → List Char → List Char
  | 0, l => l
  | n + 1, l =>
    if containsDoubleUnderscore l then squeezeLoop n (replaceDoubleUnderscore l) else l

/-- Source `_normalize_strategy_key`. -/
def normalizeStrategyKey (strategy : Option String) : String :=
  let text := (upperStr (stripStr (strategy.getD ""))).data
  let text := text.map (fun c => if c = ' ' || c = '-' then '_' else c)
  String.mk (squeezeLoop text.length text)

/-- Source `_strategy_rollover_policy`. -/
def strategyRolloverPolicy (strategy : Option String) : String :=
  if multiDayStrategyKeys.contains (normalizeStrategyKey strategy) then
    rolloverPersistUntilExit
  else rolloverIntradayAutoClose

/-- Persisted per-strategy readiness record. -/
structure StratRec where
  ready : Bool
  lastAlertEpoch : ℚ
deriving DecidableEq

/-- Persisted trade record, restricted to the fields the modelled store
operations read or write.  `entryDate` abstracts `entry_time_et`: the date of
the parsed ISO timestamp, `none` when the field is missing or unparseable. -/
structure TradeRec where
  tradeId : String
  strategy : Option String
  status : String
  entryDate : Option ℤ
  closeDate : Option ℤ
  closedReason : String
  rolloverPolicy : Option String
deriving DecidableEq

/-- Source `_trade_rollover_policy`. -/
def tradeRolloverPolicy (t : TradeRec) : String :=
  match t.rolloverPolicy with
  | some raw =>
    let normalized := upperStr (stripStr raw)
    if normalized = rolloverIntradayAutoClose ∨ normalized = rolloverPersistUntilExit then
      normalized
    else strategyRolloverPolicy t.strategy
  | none => strategyRolloverPolicy t.strategy

/-- Persisted store state (`AlertStateStore.state`); the session date is an
integer ordered like the ISO date string. -/
structure StoreState where
  date : ℤ
  strategies : List (String × StratRec)
  trades : List TradeRec
  nextTradeId : ℤ
deriving DecidableEq

def defaultStrategies : List (String × StratRec) :=
  [("IRON_CONDOR", ⟨false, 0⟩), ("IRON_FLY", ⟨false, 0⟩), ("CREDIT_SPREAD", ⟨false, 0⟩)]

/-- The per-trade transformation inside `_roll_date_if_needed`'s loop;
`nowDate` abstracts the wall-clock close stamp `dt.datetime.now(ET)`. -/
def rollTradeAtBoundary (currentDate nowDate : ℤ) (t : TradeRec) : TradeRec :=
  if t.status ≠ "open" ∧ t.status ≠ "exit_pending" then t
  else if tradeRolloverPolicy t ≠ rolloverIntradayAutoClose then t
  else
    match t.entryDate with
    | some e =>
      if e < currentDate then
        { t with
          status := "closed",
          closedReason := "day rollover auto-close",
          closeDate := some nowDate }
      else t
    | none => t

/-- Source `AlertStateStore._roll_date_if_needed`. -/
def rollDateIfNeeded (s : StoreState) (currentDate nowDate : ℤ) : StoreState :=
  if s.date = currentDate then s
  else
    { s with
      trades := s.trades.map (rollTradeAtBoundary currentDate nowDate),
      date := currentDate,
      strategies := defaultStrategies }

/-- First-match association-list lookup (Python dict access). -/
def lookupStrategy (l : List (String × StratRec)) (k : String) : Option StratRec :=
  match l with
  | [] => none
  | (k', r) :: t => if k' = k then some r else lookupStrategy t k

/-- Replace the value at a present key, else append (dict `setdefault`
followed by in-place mutation). -/
def setStrategy (l : List (String × StratRec)) (k : String) (r : StratRec) :
    List (String × StratRec) :=
  match l with
  | [] => [(k, r)]
  | (k', r') :: t => if k' = k then (k, r) :: t else (k', r') :: setStrategy t k r

/-- Source `AlertStateStore.evaluate_transition`; `nowDay` is
`now_et.date()` and `nowEpoch` is `now_et.timestamp()`. -/
def evaluateTransition (s : StoreState) (strategy : String) (isReady : Bool)
    (nowDay : ℤ) (nowEpoch : ℚ) (cooldownSeconds : ℚ)
    (alertsEnabled lossToday : Bool) : StoreState × Bool × String :=
  let s1 := rollDateIfNeeded s nowDay nowDay
  let prev := (lookupStrategy s1.strategies strategy).getD ⟨false, 0⟩
  let s2 := { s1 with strategies := setStrategy s1.strategies strategy ⟨isReady, prev.lastAlertEpoch⟩ }
  if !alertsEnabled then (s2, false, "alerts disabled")
  else if lossToday then (s2, false, "LOSS_TODAY active")
  else if !isReady then (s2, false, "not ready")
  else if prev.ready then (s2, false, "still ready (no transition)")
  else if nowEpoch - prev.lastAlertEpoch < cooldownSeconds then (s2, false, "cooldown active")
  else (s2, true, "transition ready")

/-- Source `AlertStateStore.mark_sent`. -/
def markSent (s : StoreState) (strategy : String) (nowDay : ℤ) (nowEpoch : ℚ) : StoreState :=
  let s1 := rollDateIfNeeded s nowDay nowDay
  let prev := (lookupStrategy s1.strategies strategy).getD ⟨false, 0⟩
  { s1 with strategies := setStrategy s1.strategies strategy ⟨prev.ready, nowEpoch⟩ }

/-! ### Persisted-state loading (`AlertStateStore._load` / `_default_state`)

JSON values as produced by `json.loads`: numbers keep their source type
(`jint` versus `jfloat`), and object keys are unique.  The file contents are
abstracted as `Option (Option Jval)`: `none` = file missing, `some none` =
unreadable or unparseable (the caught exception), `some (some v)` = parsed
value `v`. -/

inductive Jval where
  | jnull : Jval
  | jb : Bool → Jval
  | jint : ℤ → Jval
  | jfloat : ℚ → Jval
  | jstr : String → Jval
  | jarr : List Jval → Jval
  | jobj : List (String × Jval) → Jval

def jlookup (kvs : List (String × Jval)) (k : String) : Option Jval :=
  match kvs with
  | [] => none
  | (k', v) :: t => if k' = k then some v else jlookup t k

/-- Python `isinstance(x, dict)`. -/
def isObjB : Jval → Bool
  | .jobj _ => true
  | _ => false

/-- Python `isinstance(x, list)`. -/
def isArrB : Jval → Bool
  | .jarr _ => true
  | _ => false

/-- Python `isinstance(x, int)` — `bool` is a subtype of `int` in Python. -/
def isIntB : Jval → Bool
  | .jint _ => true
  | .jb _ => true
  | _ => false

/-- Override the value at an existing key (all state keys exist after the
default/update merge). -/
def jset (kvs : List (String × Jval)) (k : String) (v : Jval) : List (String × Jval) :=
  match kvs with
  | [] => []
  | (k', v') :: t => if k' = k then (k, v) :: t else (k', v') :: jset t k v

/-- Python `base.update(raw)`: overwrite present keys in place, append the
rest in `raw` order. -/
def jdictUpdate (base raw : List (String × Jval)) : List (String × Jval) :=
  base.map (fun kv => (kv.1, (jlookup raw kv.1).getD kv.2)) ++
    raw.filter (fun kv => (jlookup base kv.1).isNone)

def defaultStrategiesJ : Jval :=
  .jobj [("IRON_CONDOR", .jobj [("ready", .jb false), ("last_alert_epoch", .jfloat 0)]),
    ("IRON_FLY", .jobj [("ready", .jb false), ("last_alert_epoch", .jfloat 0)]),
    ("CREDIT_SPREAD", .jobj [("ready", .jb false), ("last_alert_epoch", .jfloat 0)])]

/-- Source `AlertStateStore._default_state`, parameterised by today's ISO date. -/
def defaultStateJ (todayIso : String) : Jval :=
  .jobj [("date", .jstr todayIso), ("strategies", defaultStrategiesJ),
    ("trades", .jarr []), ("next_trade_id", .jint 1)]

/-- Source `AlertStateStore._load` over the abstracted file contents. -/
def loadState (todayIso : String) (file : Option (Option Jval)) : Jval :=
  match file with
  | none => defaultStateJ todayIso
  | some none => defaultStateJ todayIso
  | some (some raw) =>
    match raw with
    | .jobj rawKvs =>
      match defaultStateJ todayIso with
      | .jobj defKvs =>
        let merged := jdictUpdate defKvs rawKvs
        let merged :=
          if !isObjB ((jlookup merged "strategies").getD .jnull) then
            jset merged "strategies" defaultStrategiesJ
          else merged
        let merged :=
          if !isArrB ((jlookup merged "trades").getD .jnull) then
            jset merged "trades" (.jarr [])
          else merged
        let merged :=
          if !isIntB ((jlookup merged "next_trade_id").getD .jnull) then
            jset merged "next_trade_id" (.jint 1)
          else merged
        .jobj merged
      | _ => defaultStateJ todayIso
    | _ => defaultStateJ todayIso

/-- Field access on a loaded state object. -/
def jget (v : Jval) (k : String) : Option Jval :=
  match v with
  | .jobj kvs => jlookup kvs k
  | _ => none

/-! ### Generic helper lemmas -/

lemma ne_nil_of_filter_ne_nil {α : Type} {p : α → Bool} {l : List α}
    (h : l.filter p ≠ []) : l ≠ [] := by
  intro hl
  subst hl
  simp at h

lemma ne_nil_of_filterMap_ne_nil {α β : Type} {f : α → Option β} {l : List α}
    (h : l.filterMap f ≠ []) : l ≠ [] := by
  intro hl
  subst hl
  simp at h

lemma ne_nil_of_flatMap_ne_nil {α β : Type} {f : α → List β} {l : List α}
    (h : l.flatMap f ≠ []) : l ≠ [] := by
  intro hl
  subst hl
  simp at h

lemma isEmpty_false_of_ne_nil {α : Type} {l : List α} (h : l ≠ []) :
    l.isEmpty = false := by
  cases l with
  | nil => exact absurd rfl h
  | cons a t => rfl

lemma closeVerticalDebit_nonneg (s l : OptionSnapshot) (d : ℚ)
    (h : closeVerticalDebit s l = some d) : 0 ≤ d := by
  unfold closeVerticalDebit at h
  split at h
  · exact Option.some_injective _ h ▸ le_max_left 0 _
  · split at h
    · exact Option.some_injective _ h ▸ le_max_left 0 _
    · exact absurd h (by simp)

/-- C10: every live close-out debit computed by the exit engine (vertical,
condor, fly, or directional credit spread) is clamped to be at least zero,
and consequently the profit percentage of a trade with positive initial
credit and a computed (hence nonnegative) debit never exceeds 1. -/
theorem closeout_debit_clamped_profit_capped :
    (∀ (s l : OptionSnapshot) (d : ℚ), closeVerticalDebit s l = some d → 0 ≤ d) ∧
    (∀ (lookup : String × ℚ → Option OptionSnapshot) (sp lp sc lc : Option ℚ) (d : ℚ),
      condorCloseDebit lookup sp lp sc lc = some d → 0 ≤ d) ∧
    (∀ (lookup : String × ℚ → Option OptionSnapshot) (ss lp lc : Option ℚ) (d : ℚ),
      flyCloseDebit lookup ss lp lc = some d → 0 ≤ d) ∧
    (∀ (lookup : String × ℚ → Option OptionSnapshot) (sr lr : String)
      (ss ls : Option ℚ) (d : ℚ),
      creditSpreadCloseDebit lookup sr lr ss ls = some d → 0 ≤ d) ∧
    (∀ (c d p : ℚ), 0 < c → 0 ≤ d → profitPctQ (some c) (some d) = some p → p ≤ 1) := by
  refine ⟨closeVerticalDebit_nonneg, ?_, ?_, ?_, ?_⟩
  · intro lookup sp lp sc lc d h
    unfold condorCloseDebit at h
    repeat' split at h
    all_goals first
      | exact Option.noConfusion h
      | (rw [Option.some_inj] at h; exact h ▸ le_max_left 0 _)
  · intro lookup ss lp lc d h
    unfold flyCloseDebit at h
    repeat' split at h
    all_goals first
      | exact Option.noConfusion h
      | (rw [Option.some_inj] at h; exact h ▸ le_max_left 0 _)
  · intro lookup sr lr ss ls d h
    unfold creditSpreadCloseDebit at h
    repeat' split at h
    all_goals try exact Option.noConfusion h
    all_goals dsimp only at h
    all_goals repeat' split at h
    all_goals first
      | exact Option.noConfusion h
      | exact closeVerticalDebit_nonneg _ _ _ h
  · intro c d p hc hd h
    unfold profitPctQ at h
    dsimp only at h
    rw [if_neg (ne_of_gt hc)] at h
    rw [Option.some_inj] at h
    rw [← h, div_le_one hc]
    linarith

/-- Witness for C10 at the concrete inputs of the condor exit scenario. -/
theorem closeout_debit_witness : (61/100 : ℚ) ≤ 1 :=
  closeout_debit_clamped_profit_capped.2.2.2.2 2 (78/100) (61/100)
    (by norm_num) (by norm_num) (by norm_num [profitPctQ])

/-- C6: an exit decision triggered only by reasons free of the
stop/wing/gamma/range/ATR keywords (such as a lone "Max hold reached"
reason) is tagged AMBER, never RED; and a non-triggered decision is GREEN
exactly when the profit percentage is defined and nonnegative, otherwise
AMBER. -/
theorem severity_amber_on_soft_triggers_green_iff_profitable :
    (∀ (reasons : List String) (pp : Option ℚ),
      (∀ r ∈ reasons, containsStopKeyword r = false) →
      severity true reasons pp = "AMBER") ∧
    (∀ (reasons : List String) (pp : Option ℚ),
      (severity false reasons pp = "GREEN" ↔ ∃ p, pp = some p ∧ 0 ≤ p) ∧
      (severity false reasons pp = "GREEN" ∨ severity false reasons pp = "AMBER")) := by
  constructor
  · intro reasons pp h
    have hany : reasons.any containsStopKeyword = false := by
      rw [List.any_eq_false]
      intro x hx
      simp [h x hx]
    simp [severity, hany]
  · intro reasons pp
    cases pp with
    | none =>
      have hred : severity false reasons none = "AMBER" := rfl
      rw [hred]
      refine ⟨⟨fun h => absurd h (by decide), ?_⟩, Or.inr rfl⟩
      rintro ⟨p, hp, -⟩
      exact Option.noConfusion hp
    | some p =>
      have hred : severity false reasons (some p) =
          if 0 ≤ p then "GREEN" else "AMBER" := rfl
      rw [hred]
      by_cases hp : 0 ≤ p
      · rw [if_pos hp]
        exact ⟨⟨fun _ => ⟨p, rfl, hp⟩, fun _ => rfl⟩, Or.inl rfl⟩
      · rw [if_neg hp]
        refine ⟨⟨fun h => absurd h (by decide), ?_⟩, Or.inr rfl⟩
        rintro ⟨q, hq, hq0⟩
        cases Option.some_inj.mp hq
        exact absurd hq0 hp

/-- Witness for C6: a lone "Max hold reached" reason carries no stop keyword
and yields AMBER. -/
theorem severity_amber_witness :
    severity true ["Max hold reached (95m >= 90m)."] none = "AMBER" :=
  severity_amber_on_soft_triggers_green_iff_profitable.1
    ["Max hold reached (95m >= 90m)."] none (by decide)


/-- State-dict shape after the default/update merge: the four state keys in
order, then the file's extra keys. -/
def p4 (dv sv tv nv : Jval) (rest : List (String × Jval)) : List (String × Jval) :=
  ("date", dv) :: ("strategies", sv) :: ("trades", tv) :: ("next_trade_id", nv) :: rest

lemma jdictUpdate_default_p4 (todayIso : String) (kvs : List (String × Jval)) :
    jdictUpdate [("date", Jval.jstr todayIso), ("strategies", defaultStrategiesJ),
      ("trades", Jval.jarr []), ("next_trade_id", Jval.jint 1)] kvs =
    p4 ((jlookup kvs "date").getD (Jval.jstr todayIso))
      ((jlookup kvs "strategies").getD defaultStrategiesJ)
      ((jlookup kvs "trades").getD (Jval.jarr []))
      ((jlookup kvs "next_trade_id").getD (Jval.jint 1))
      (kvs.filter (fun kv =>
        (jlookup [("date", Jval.jstr todayIso), ("strategies", defaultStrategiesJ),
          ("trades", Jval.jarr []), ("next_trade_id", Jval.jint 1)] kv.1).isNone)) := rfl

lemma jlookup_p4_strategies (dv sv tv nv : Jval) (rest : List (String × Jval)) :
    jlookup (p4 dv sv tv nv rest) "strategies" = some sv := rfl

lemma jlookup_p4_trades (dv sv tv nv : Jval) (rest : List (String × Jval)) :
    jlookup (p4 dv sv tv nv rest) "trades" = some tv := rfl

lemma jlookup_p4_ntid (dv sv tv nv : Jval) (rest : List (String × Jval)) :
    jlookup (p4 dv sv tv nv rest) "next_trade_id" = some nv := rfl

lemma jset_p4_strategies (dv sv tv nv v : Jval) (rest : List (String × Jval)) :
    jset (p4 dv sv tv nv rest) "strategies" v = p4 dv v tv nv rest := rfl

lemma jset_p4_trades (dv sv tv nv v : Jval) (rest : List (String × Jval)) :
    jset (p4 dv sv tv nv rest) "trades" v = p4 dv sv v nv rest := rfl

lemma jset_p4_ntid (dv sv tv nv v : Jval) (rest : List (String × Jval)) :
    jset (p4 dv sv tv nv rest) "next_trade_id" v = p4 dv sv tv v rest := rfl

/-- An object-file load in closed form: each state field is the file's value
when well-typed, else its default. -/
lemma loadState_obj_p4 (todayIso : String) (kvs : List (String × Jval)) :
    loadState todayIso (some (some (.jobj kvs))) =
      .jobj (p4 ((jlookup kvs "date").getD (Jval.jstr todayIso))
        (if isObjB ((jlookup kvs "strategies").getD defaultStrategiesJ) then
          (jlookup kvs "strategies").getD defaultStrategiesJ else defaultStrategiesJ)
        (if isArrB ((jlookup kvs "trades").getD (Jval.jarr [])) then
          (jlookup kvs "trades").getD (Jval.jarr []) else Jval.jarr [])
        (if isIntB ((jlookup kvs "next_trade_id").getD (Jval.jint 1)) then
          (jlookup kvs "next_trade_id").getD (Jval.jint 1) else Jval.jint 1)
        (kvs.filter (fun kv =>
          (jlookup [("date", Jval.jstr todayIso), ("strategies", defaultStrategiesJ),
            ("trades", Jval.jarr []), ("next_trade_id", Jval.jint 1)] kv.1).isNone))) := by
  unfold loadState
  dsimp only [defaultStateJ]
  rw [jdictUpdate_default_p4]
  by_cases hb1 : isObjB ((jlookup kvs "strategies").getD defaultStrategiesJ) <;>
    by_cases hb2 : isArrB ((jlookup kvs "trades").getD (Jval.jarr [])) <;>
      by_cases hb3 : isIntB ((jlookup kvs "next_trade_id").getD (Jval.jint 1)) <;>
        simp only [jlookup_p4_strategies, jlookup_p4_trades, jlookup_p4_ntid,
          jset_p4_strategies, jset_p4_trades, jset_p4_ntid, Option.getD_some,
          hb1, hb2, hb3, Bool.not_true, Bool.not_false, if_true, if_false,
          Bool.false_eq_true, Bool.true_eq_false, ite_true, ite_false]

/-- C8: loading the persisted store never propagates a failure: a missing,
unparseable, or non-object state file yields the freshly-initialised default
state (current date, per-strategy records with ready=false and last-alert
epoch 0, empty trade list, next_trade_id 1), and a malformed strategies /
trades / next_trade_id field inside an otherwise-valid object file is
individually replaced by its default. -/
theorem load_state_falls_back_to_defaults :
    (∀ todayIso : String,
      defaultStateJ todayIso =
        .jobj [("date", .jstr todayIso), ("strategies", defaultStrategiesJ),
          ("trades", .jarr []), ("next_trade_id", .jint 1)]) ∧
    (∀ todayIso : String, loadState todayIso none = defaultStateJ todayIso) ∧
    (∀ todayIso : String, loadState todayIso (some none) = defaultStateJ todayIso) ∧
    (∀ (todayIso : String) (j : Jval), isObjB j = false →
      loadState todayIso (some (some j)) = defaultStateJ todayIso) ∧
    (∀ (todayIso : String) (kvs : List (String × Jval)),
      (∀ v, jlookup kvs "strategies" = some v → isObjB v = false) →
      jget (loadState todayIso (some (some (.jobj kvs)))) "strategies" =
        some defaultStrategiesJ) ∧
    (∀ (todayIso : String) (kvs : List (String × Jval)),
      (∀ v, jlookup kvs "trades" = some v → isArrB v = false) →
      jget (loadState todayIso (some (some (.jobj kvs)))) "trades" = some (.jarr [])) ∧
    (∀ (todayIso : String) (kvs : List (String × Jval)),
      (∀ v, jlookup kvs "next_trade_id" = some v → isIntB v = false) →
      jget (loadState todayIso (some (some (.jobj kvs)))) "next_trade_id" =
        some (.jint 1)) := by
  refine ⟨fun _ => rfl, fun _ => rfl, fun _ => rfl, ?_, ?_, ?_, ?_⟩
  · intro todayIso j hj
    cases j <;> first | rfl | exact absurd hj (by simp [isObjB])
  · intro todayIso kvs h
    rw [loadState_obj_p4]
    show jlookup (p4 _ _ _ _ _) "strategies" = _
    rw [jlookup_p4_strategies]
    cases hs : jlookup kvs "strategies" with
    | none => rfl
    | some v => rw [Option.getD_some, if_neg (by rw [h v hs]; exact Bool.false_ne_true)]
  · intro todayIso kvs h
    rw [loadState_obj_p4]
    show jlookup (p4 _ _ _ _ _) "trades" = _
    rw [jlookup_p4_trades]
    cases hs : jlookup kvs "trades" with
    | none => rfl
    | some v => rw [Option.getD_some, if_neg (by rw [h v hs]; exact Bool.false_ne_true)]
  · intro todayIso kvs h
    rw [loadState_obj_p4]
    show jlookup (p4 _ _ _ _ _) "next_trade_id" = _
    rw [jlookup_p4_ntid]
    cases hs : jlookup kvs "next_trade_id" with
    | none => rfl
    | some v => rw [Option.getD_some, if_neg (by rw [h v hs]; exact Bool.false_ne_true)]

/-- Witness for C8 at a concrete non-object file and a concrete object file
with malformed strategies, trades, and next_trade_id fields. -/
theorem load_state_witness :
    loadState "2026-10-12" (some (some (.jarr []))) = defaultStateJ "2026-10-12" ∧
    jget (loadState "2026-10-12"
        (some (some (.jobj [("strategies", .jint 5), ("trades", .jstr "x"),
          ("next_trade_id", .jstr "y")])))) "strategies" = some defaultStrategiesJ ∧
    jget (loadState "2026-10-12"
        (some (some (.jobj [("strategies", .jint 5), ("trades", .jstr "x"),
          ("next_trade_id", .jstr "y")])))) "trades" = some (.jarr []) ∧
    jget (loadState "2026-10-12"
        (some (some (.jobj [("strategies", .jint 5), ("trades", .jstr "x"),
          ("next_trade_id", .jstr "y")])))) "next_trade_id" = some (.jint 1) :=
  ⟨load_state_falls_back_to_defaults.2.2.2.1 "2026-10-12" (.jarr []) rfl,
    load_state_falls_back_to_defaults.2.2.2.2.1 "2026-10-12" _
      (fun v hv => by cases Option.some_inj.mp hv; rfl),
    load_state_falls_back_to_defaults.2.2.2.2.2.1 "2026-10-12" _
      (fun v hv => by cases Option.some_inj.mp hv; rfl),
    load_state_falls_back_to_defaults.2.2.2.2.2.2 "2026-10-12" _
      (fun v hv => by cases Option.some_inj.mp hv; rfl)⟩

lemma lookupStrategy_setStrategy (l : List (String × StratRec)) (k : String) (r : StratRec) :
    lookupStrategy (setStrategy l k r) k = some r := by
  induction l with
  | nil => simp [setStrategy, lookupStrategy]
  | cons kv t ih =>
    obtain ⟨k', r'⟩ := kv
    by_cases hk : k' = k
    · simp [setStrategy, hk, lookupStrategy]
    · simp [setStrategy, hk, lookupStrategy, ih]

/-- C3: from a stored readiness record with ready=false, alerts enabled, no
same-day loss flag and cooldown 0 elapsed, a tick reporting ready permits
exactly one alert (the next still-ready tick permits none and reports no
transition); mark_sent stamps the last-alert epoch without touching the
stored readiness; and the stored readiness always mirrors the latest
is_ready input. -/
theorem readiness_transition_fires_exactly_once :
    ∀ (s : StoreState) (strat : String) (la ep1 ep2 : ℚ) (d : ℤ),
      s.date = d →
      lookupStrategy s.strategies strat = some ⟨false, la⟩ →
      la ≤ ep1 →
      ((evaluateTransition s strat true d ep1 0 true false).2.1 = true) ∧
      ((evaluateTransition s strat true d ep1 0 true false).2.2 = "transition ready") ∧
      (lookupStrategy (evaluateTransition s strat true d ep1 0 true false).1.strategies strat =
        some ⟨true, la⟩) ∧
      ((evaluateTransition (evaluateTransition s strat true d ep1 0 true false).1
          strat true d ep2 0 true false).2.1 = false) ∧
      ((evaluateTransition (evaluateTransition s strat true d ep1 0 true false).1
          strat true d ep2 0 true false).2.2 = "still ready (no transition)") ∧
      (∀ (s' : StoreState) (d' : ℤ) (ep' : ℚ) (r : StratRec),
        s'.date = d' →
        lookupStrategy s'.strategies strat = some r →
        lookupStrategy (markSent s' strat d' ep').strategies strat = some ⟨r.ready, ep'⟩) ∧
      (∀ (s' : StoreState) (isReady : Bool) (d' : ℤ) (ep' cd : ℚ) (ae lt : Bool),
        ∃ rec,
          lookupStrategy (evaluateTransition s' strat isReady d' ep' cd ae lt).1.strategies
            strat = some rec ∧ rec.ready = isReady) := by
  intro s strat la ep1 ep2 d hdate hrec hla
  have hroll : rollDateIfNeeded s d d = s := by
    unfold rollDateIfNeeded
    rw [if_pos hdate]
  have h1 : evaluateTransition s strat true d ep1 0 true false =
      ({ s with strategies := setStrategy s.strategies strat ⟨true, la⟩ }, true,
        "transition ready") := by
    unfold evaluateTransition
    rw [hroll]
    dsimp only
    rw [hrec]
    dsimp only [Option.getD_some]
    have hcool : ¬ ep1 - la < 0 := by linarith
    simp [hcool]
  have hroll2 : rollDateIfNeeded
      { s with strategies := setStrategy s.strategies strat ⟨true, la⟩ } d d =
      { s with strategies := setStrategy s.strategies strat ⟨true, la⟩ } := by
    unfold rollDateIfNeeded
    rw [if_pos hdate]
  have h2 : ∀ ep : ℚ, evaluateTransition
      { s with strategies := setStrategy s.strategies strat ⟨true, la⟩ }
      strat true d ep 0 true false =
      ({ s with strategies := setStrategy s.strategies strat ⟨true, la⟩ }, false,
        "still ready (no transition)") := by
    intro ep
    unfold evaluateTransition
    rw [hroll2]
    dsimp only
    rw [lookupStrategy_setStrategy]
    dsimp only [Option.getD_some]
    have hset : setStrategy (setStrategy s.strategies strat ⟨true, la⟩) strat ⟨true, la⟩ =
        setStrategy s.strategies strat ⟨true, la⟩ := by
      clear hrec
      induction s.strategies with
      | nil => simp [setStrategy]
      | cons kv t ih =>
        obtain ⟨k', r'⟩ := kv
        by_cases hk : k' = strat
        · simp [setStrategy, hk]
        · simp [setStrategy, hk, ih]
    simp [hset]
  refine ⟨by rw [h1], by rw [h1], ?_, ?_, ?_, ?_, ?_⟩
  · rw [h1]
    exact lookupStrategy_setStrategy _ _ _
  · rw [h1, h2]
  · rw [h1, h2]
  · intro s' d' ep' r hd' hr
    unfold markSent
    rw [show rollDateIfNeeded s' d' d' = s' from by
      unfold rollDateIfNeeded
      rw [if_pos hd']]
    dsimp only
    rw [hr]
    dsimp only [Option.getD_some]
    exact lookupStrategy_setStrategy _ _ _
  · intro s' isReady d' ep' cd ae lt
    refine ⟨⟨isReady, ((lookupStrategy (rollDateIfNeeded s' d' d').strategies strat).getD
      ⟨false, 0⟩).lastAlertEpoch⟩, ?_, rfl⟩
    unfold evaluateTransition
    dsimp only
    repeat' split
    all_goals exact lookupStrategy_setStrategy _ _ _

/-- Witness for C3 at a concrete one-strategy store. -/
theorem readiness_transition_witness :
    (evaluateTransition
      ⟨0, [("IRON_CONDOR", ⟨false, 0⟩)], [], 1⟩ "IRON_CONDOR" true 0 5 0 true false).2.1 =
      true :=
  (readiness_transition_fires_exactly_once
    ⟨0, [("IRON_CONDOR", ⟨false, 0⟩)], [], 1⟩ "IRON_CONDOR" 0 5 9 0 rfl rfl
    (by norm_num)).1

/-- C2: on the first store mutation of a new session date, every
intraday-auto-close trade that is open or exit_pending with an entry date
strictly before the current date is closed with reason
"day rollover auto-close"; persist-until-exit trades keep their status; and
repeating the day-boundary check on the same date is a no-op. -/
theorem day_rollover_closes_intraday_trades_idempotently :
    ∀ (s : StoreState) (currentDate nowDate : ℤ),
      s.date ≠ currentDate →
      ((rollDateIfNeeded s currentDate nowDate).trades =
        s.trades.map (rollTradeAtBoundary currentDate nowDate)) ∧
      ((rollDateIfNeeded s currentDate nowDate).date = currentDate) ∧
      (∀ t : TradeRec,
        tradeRolloverPolicy t = rolloverIntradayAutoClose →
        (t.status = "open" ∨ t.status = "exit_pending") →
        ∀ e : ℤ, t.entryDate = some e → e < currentDate →
        (rollTradeAtBoundary currentDate nowDate t).status = "closed" ∧
        (rollTradeAtBoundary currentDate nowDate t).closedReason =
          "day rollover auto-close") ∧
      (∀ t : TradeRec,
        tradeRolloverPolicy t = rolloverPersistUntilExit →
        rollTradeAtBoundary currentDate nowDate t = t) ∧
      (∀ nowDate' : ℤ,
        rollDateIfNeeded (rollDateIfNeeded s currentDate nowDate) currentDate nowDate' =
          rollDateIfNeeded s currentDate nowDate) := by
  intro s currentDate nowDate hdate
  have hroll : rollDateIfNeeded s currentDate nowDate =
      { s with
        trades := s.trades.map (rollTradeAtBoundary currentDate nowDate),
        date := currentDate,
        strategies := defaultStrategies } := by
    unfold rollDateIfNeeded
    rw [if_neg hdate]
  refine ⟨by rw [hroll], by rw [hroll], ?_, ?_, ?_⟩
  · intro t hpol hstatus e hentry hlt
    have hopen : ¬(t.status ≠ "open" ∧ t.status ≠ "exit_pending") := by
      rcases hstatus with h | h
      · exact fun hc => hc.1 h
      · exact fun hc => hc.2 h
    have hpol' : ¬tradeRolloverPolicy t ≠ rolloverIntradayAutoClose := fun hc => hc hpol
    unfold rollTradeAtBoundary
    rw [if_neg hopen, if_neg hpol', hentry]
    dsimp only
    rw [if_pos hlt]
    exact ⟨rfl, rfl⟩
  · intro t hpol
    by_cases hopen : t.status ≠ "open" ∧ t.status ≠ "exit_pending"
    · unfold rollTradeAtBoundary
      rw [if_pos hopen]
    · have hne : tradeRolloverPolicy t ≠ rolloverIntradayAutoClose := by
        rw [hpol]
        intro hc
        exact absurd hc (by decide)
      unfold rollTradeAtBoundary
      rw [if_neg hopen, if_pos hne]
  · intro nowDate'
    rw [hroll]
    unfold rollDateIfNeeded
    simp

/-- Witness for C2: a store one day behind with an intraday condor trade and
a persist-until-exit two-day credit-spread trade. -/
theorem day_rollover_witness :
    (rollTradeAtBoundary 1 1
      ⟨"T00001", some "IRON_CONDOR", "open", some 0, none, "", none⟩).status = "closed" ∧
    (rollTradeAtBoundary 1 1
      ⟨"T00002", some "2_DTE_CREDIT_SPREAD", "open", some 0, none, "", none⟩) =
      ⟨"T00002", some "2_DTE_CREDIT_SPREAD", "open", some 0, none, "", none⟩ ∧
    rollDateIfNeeded
      (rollDateIfNeeded ⟨0, defaultStrategies,
        [⟨"T00001", some "IRON_CONDOR", "open", some 0, none, "", none⟩], 2⟩ 1 1) 1 1 =
      rollDateIfNeeded ⟨0, defaultStrategies,
        [⟨"T00001", some "IRON_CONDOR", "open", some 0, none, "", none⟩], 2⟩ 1 1 := by
  have h := day_rollover_closes_intraday_trades_idempotently
    ⟨0, defaultStrategies,
      [⟨"T00001", some "IRON_CONDOR", "open", some 0, none, "", none⟩], 2⟩ 1 1
    (by decide)
  refine ⟨?_, ?_, h.2.2.2.2 1⟩
  · exact (h.2.2.1 ⟨"T00001", some "IRON_CONDOR", "open", some 0, none, "", none⟩
      (by decide) (Or.inl rfl) 0 rfl (by decide)).1
  · exact h.2.2.2.1 ⟨"T00002", some "2_DTE_CREDIT_SPREAD", "open", some 0, none, "", none⟩
      (by decide)

/-! ### Concrete scenarios -/

/-- Scenario-1 chain: short put 5950 Δ −0.12 (bid 0.95 / ask 1.00 / mid
0.975), short call 6050 Δ +0.12 (same quotes), wings 5900/6100 at mid
0.425. -/
def scenario1Options : List OptionSnapshot :=
  [mkOpt "P" 5950 (some (95/100)) (some 1) (some (975/1000)) (some (-(12/100))),
    mkOpt "C" 6050 (some (95/100)) (some 1) (some (975/1000)) (some (12/100)),
    mkOpt "P" 5900 none none (some (425/1000)) none,
    mkOpt "C" 6100 none none (some (425/1000)) none]

set_option maxRecDepth 4000 in
unseal Rat.add Rat.mul Rat.sub Rat.inv in
/-- C4: on the scenario-1 chain with spot 6000, EMR 20 and width 50, the
condor generator is ready with credit (0.975+0.975) − (0.425+0.425) = 1.10
and max loss in points 50 − 1.10 = 48.90, for every normal-CDF model. -/
theorem condor_scenario1_credit_and_max_loss :
    ∀ ncdf : ℚ → ℚ,
      ((findIronCondorCandidate ncdf scenario1Options (some 6000) (some 20) none
        [50]).ready = true) ∧
      ((findIronCondorCandidate ncdf scenario1Options (some 6000) (some 20) none
        [50]).candidate.map CondorCandidate.credit = some (11/10)) ∧
      ((findIronCondorCandidate ncdf scenario1Options (some 6000) (some 20) none
        [50]).candidate.map CondorCandidate.maxLossPoints = some (489/10)) :=
  fun ncdf => ⟨by rfl, by rfl, by rfl⟩

/-- Scenario-3 quotes: closing the condor 5950/5900 put side costs
0.30 − 0.05 = 0.25 and the 6050/6100 call side costs 0.60 − 0.07 = 0.53,
for a total close-out debit of 0.78. -/
def scenario3Options : List OptionSnapshot :=
  [mkOpt "P" 5950 none (some (30/100)) none none,
    mkOpt "P" 5900 (some (5/100)) none none none,
    mkOpt "C" 6050 none (some (60/100)) none none,
    mkOpt "C" 6100 (some (7/100)) none none none]

/-- Scenario-3 condor exit evaluation: initial credit 2.00, live debit 0.78,
at 11:00 ET with 10 minutes in trade and default configuration. -/
def scenario3Exit : ExitDecision :=
  evaluateCondorExit (buildOptionLookup scenario3Options)
    (some 5950) (some 5900) (some 6050) (some 6100) (some 50) (some 2)
    10 39600 (some 6000) (some 20) none none {}

set_option maxRecDepth 4000 in
unseal Rat.add Rat.mul Rat.sub Rat.inv in
/-- Counterexample for C5: in scenario 3 the first triggered reason is not
the claimed string "Profit target hit (61% >= 60%)" — the engine formats the
percentage with one decimal and a trailing period. -/
theorem condor_exit_reason_string_counterexample :
    scenario3Exit.shouldExit = true ∧
    scenario3Exit.profitPct = some (61/100) ∧
    scenario3Exit.reasons.head? ≠ some "Profit target hit (61% >= 60%)" := by
  refine ⟨by decide, by decide, ?_⟩
  intro h
  have h2 : "Profit target hit (61.0% >= 60%)." = "Profit target hit (61% >= 60%)" := by
    have h1 : scenario3Exit.reasons.head? = some "Profit target hit (61.0% >= 60%)." := by
      decide
    rw [h1] at h
    exact Option.some_inj.mp h
  exact absurd h2 (by decide)

set_option maxRecDepth 4000 in
unseal Rat.add Rat.mul Rat.sub Rat.inv in
/-- C5 (amended): in scenario 3 the exit evaluation computes profit_pct =
(2.00 − 0.78)/2.00 = 0.61, which clears the default 0.60 threshold, so
should_exit is true and the first reason is exactly
"Profit target hit (61.0% >= 60%).". -/
theorem condor_exit_profit_target_scenario3 :
    scenario3Exit.shouldExit = true ∧
    scenario3Exit.currentDebit = some (78/100) ∧
    scenario3Exit.profitPct = some (61/100) ∧
    scenario3Exit.reasons = ["Profit target hit (61.0% >= 60%)."] :=
  ⟨by decide, by decide, by decide, by decide⟩

lemma ne_nil_of_isEmpty_eq_false {α : Type} {l : List α} (h : l.isEmpty = false) :
    l ≠ [] := by
  cases l with
  | nil => simp at h
  | cons a t => simp

lemma ne_nil_of_not_isEmpty {α : Type} {l : List α} (h : (!l.isEmpty) = true) :
    l ≠ [] := by
  cases l with
  | nil => simp at h
  | cons a t => simp

lemma condorNotReady_reasons_ok (rs : List String) (cs : List Criterion)
    (h1 : rs ≠ []) (h2 : ∀ r ∈ rs, r ≠ "") :
    (condorNotReady rs cs).reasons ≠ [] ∧
    ∀ r ∈ (condorNotReady rs cs).reasons, r ≠ "" :=
  ⟨h1, h2⟩

lemma flyNotReady_reasons_ok (rs : List String) (cs : List Criterion)
    (h1 : rs ≠ []) (h2 : ∀ r ∈ rs, r ≠ "") :
    (flyNotReady rs cs).reasons ≠ [] ∧
    ∀ r ∈ (flyNotReady rs cs).reasons, r ≠ "" :=
  ⟨h1, h2⟩

lemma condor_not_ready_has_reasons (ncdf : ℚ → ℚ) (options : List OptionSnapshot)
    (spot emr fullDayEm : Option ℚ) (widths : List ℤ) :
    (findIronCondorCandidate ncdf options spot emr fullDayEm widths).ready = false →
    (findIronCondorCandidate ncdf options spot emr fullDayEm widths).reasons ≠ [] ∧
    ∀ r ∈ (findIronCondorCandidate ncdf options spot emr fullDayEm widths).reasons,
      r ≠ "" := by
  unfold findIronCondorCandidate
  split
  · intro _
    exact condorNotReady_reasons_ok _ _ (by decide) (by decide)
  · split
    · intro _
      exact condorNotReady_reasons_ok _ _ (by decide) (by decide)
    · split
      · intro _
        exact condorNotReady_reasons_ok _ _ (by decide) (by decide)
      · split
        · intro _
          exact condorNotReady_reasons_ok _ _ (by decide) (by decide)
        · split
          · rename_i hband
            intro _
            apply condorNotReady_reasons_ok
            · unfold condorBandReasons
              rcases Bool.or_eq_true_iff.mp hband with hp | hc
              · rw [hp]
                simp
              · rw [hc]
                rcases hq : (condorPuts options).isEmpty <;> simp
            · intro r hr
              unfold condorBandReasons at hr
              rw [List.mem_append] at hr
              rcases hr with hr | hr <;> split at hr <;> simp at hr <;> subst hr <;> decide
          · split
            · intro _
              exact condorNotReady_reasons_ok _ _ (by decide) (by decide)
            · intro h
              simp at h

lemma fly_not_ready_has_reasons (ncdf : ℚ → ℚ) (options : List OptionSnapshot)
    (spot emr fullDayEm : Option ℚ) (nowSec : ℕ)
    (range15m vwapDistance vixChangePct : Option ℚ) (widths : List ℤ) :
    (findIronFlyCandidate ncdf options spot emr fullDayEm nowSec range15m vwapDistance
      vixChangePct widths).ready = false →
    (findIronFlyCandidate ncdf options spot emr fullDayEm nowSec range15m vwapDistance
      vixChangePct widths).reasons ≠ [] ∧
    ∀ r ∈ (findIronFlyCandidate ncdf options spot emr fullDayEm nowSec range15m
      vwapDistance vixChangePct widths).reasons, r ≠ "" := by
  unfold findIronFlyCandidate
  split
  · intro _
    exact flyNotReady_reasons_ok _ _ (by decide) (by decide)
  · split
    · intro _
      exact flyNotReady_reasons_ok _ _ (by decide) (by decide)
    · split
      · intro _
        exact flyNotReady_reasons_ok _ _ (by decide) (by decide)
      · split
        · intro _
          exact flyNotReady_reasons_ok _ _ (by decide) (by decide)
        · dsimp only
          split
          · rename_i hgate
            intro _
            apply flyNotReady_reasons_ok
            · exact ne_nil_of_not_isEmpty hgate
            · intro r hr
              unfold flyGateReasons at hr
              simp only [List.mem_append] at hr
              rcases hr with ((hr | hr) | hr) | hr <;> split at hr <;> simp at hr <;>
                subst hr <;> decide
          · split
            · intro _
              exact flyNotReady_reasons_ok _ _ (by decide) (by decide)
            · split
              · split
                · intro _
                  exact flyNotReady_reasons_ok _ _ (by decide) (by decide)
                · split
                  · intro _
                    exact flyNotReady_reasons_ok _ _ (by decide) (by decide)
                  · intro h
                    simp at h
              · intro _
                exact flyNotReady_reasons_ok _ _ (by decide) (by decide)

/-- C9: whenever the iron condor or iron fly generator returns a not-ready
result, the reasons list is nonempty and every reason is a nonempty
string. -/
theorem not_ready_results_carry_reasons :
    (∀ (ncdf : ℚ → ℚ) (options : List OptionSnapshot) (spot emr fullDayEm : Option ℚ)
      (widths : List ℤ),
      (findIronCondorCandidate ncdf options spot emr fullDayEm widths).ready = false →
      (findIronCondorCandidate ncdf options spot emr fullDayEm widths).reasons ≠ [] ∧
      ∀ r ∈ (findIronCondorCandidate ncdf options spot emr fullDayEm widths).reasons,
        r ≠ "") ∧
    (∀ (ncdf : ℚ → ℚ) (options : List OptionSnapshot) (spot emr fullDayEm : Option ℚ)
      (nowSec : ℕ) (range15m vwapDistance vixChangePct : Option ℚ) (widths : List ℤ),
      (findIronFlyCandidate ncdf options spot emr fullDayEm nowSec range15m vwapDistance
        vixChangePct widths).ready = false →
      (findIronFlyCandidate ncdf options spot emr fullDayEm nowSec range15m vwapDistance
        vixChangePct widths).reasons ≠ [] ∧
      ∀ r ∈ (findIronFlyCandidate ncdf options spot emr fullDayEm nowSec range15m
        vwapDistance vixChangePct widths).reasons, r ≠ "") :=
  ⟨condor_not_ready_has_reasons, fly_not_ready_has_reasons⟩

/-- Witness for C9 at concrete missing-spot inputs. -/
theorem not_ready_reasons_witness :
    (findIronCondorCandidate (fun _ => 0) [] none none none []).reasons ≠ [] ∧
    (findIronFlyCandidate (fun _ => 0) [] none none none 0 none none none []).reasons ≠ [] :=
  ⟨(not_ready_results_carry_reasons.1 (fun _ => 0) [] none none none [] (by decide)).1,
    (not_ready_results_carry_reasons.2 (fun _ => 0) [] none none none 0 none none none []
      (by decide)).1⟩

lemma condor_ready_all_criteria_passed (ncdf : ℚ → ℚ) (options : List OptionSnapshot)
    (spot emr fullDayEm : Option ℚ) (widths : List ℤ) :
    (findIronCondorCandidate ncdf options spot emr fullDayEm widths).ready = true →
    ∀ c ∈ (findIronCondorCandidate ncdf options spot emr fullDayEm widths).criteria,
      c.passed = true := by
  unfold findIronCondorCandidate
  split
  · intro h
    simp [condorNotReady] at h
  · rename_i sp
    split
    · intro h
      simp [condorNotReady] at h
    · rename_i emx em
      split
      · intro h
        simp [condorNotReady] at h
      · split
        · intro h
          simp [condorNotReady] at h
        · split
          · intro h
            simp [condorNotReady] at h
          · rename_i hem hw hband
            split
            · intro h
              simp [condorNotReady] at h
            · rename_i cands c cs hcands
              intro _
              have hb : ((condorPuts options).isEmpty || (condorCalls options).isEmpty) =
                  false := by
                cases hx : ((condorPuts options).isEmpty || (condorCalls options).isEmpty)
                · rfl
                · exact absurd hx hband
              obtain ⟨hputs, hcalls⟩ := Bool.or_eq_false_iff.mp hb
              have hcne : condorCands ncdf options sp fullDayEm em widths ≠ [] := by
                rw [hcands]
                simp
              have hclen : 0 < (condorCands ncdf options sp fullDayEm em widths).length :=
                List.length_pos.mpr hcne
              have hstr : condorStructs ncdf options sp fullDayEm em widths ≠ [] := by
                unfold condorCands at hcne
                exact ne_nil_of_filterMap_ne_nil hcne
              have hslen : 0 < (condorStructs ncdf options sp fullDayEm em widths).length :=
                List.length_pos.mpr hstr
              have hliq : condorLiquidPairs options sp em ≠ [] := by
                unfold condorStructs at hstr
                exact ne_nil_of_flatMap_ne_nil hstr
              have hdist : condorDistPairs options sp em ≠ [] := by
                unfold condorLiquidPairs at hliq
                exact ne_nil_of_filter_ne_nil hliq
              have hsym : condorSymPairs options ≠ [] := by
                unfold condorDistPairs at hdist
                exact ne_nil_of_filter_ne_nil hdist
              intro cr hcr
              simp only [condorCriteriaFull, condorCritSpot, condorCritEmr, condorCritWidths,
                condorCritPuts, condorCritCalls, criterion, List.mem_append, List.mem_cons,
                List.mem_singleton, List.not_mem_nil, or_false] at hcr
              rcases hcr with (rfl | rfl | rfl | rfl | rfl | rfl | rfl | rfl | rfl | rfl) | rfl <;>
                simp [hputs, hcalls, isEmpty_false_of_ne_nil hliq,
                  isEmpty_false_of_ne_nil hdist, isEmpty_false_of_ne_nil hsym, hclen, hslen]

lemma eq_nil_of_isEmpty_true {α : Type} {l : List α} (h : l.isEmpty = true) : l = [] := by
  cases l with
  | nil => rfl
  | cons a t => simp at h

lemma ite_nil_eq_nil_imp {α : Type} {b : Bool} {x : α}
    (h : (if b = true then ([] : List α) else [x]) = []) : b = true := by
  cases b with
  | true => rfl
  | false => simp at h

lemma fly_ready_all_criteria_passed (ncdf : ℚ → ℚ) (options : List OptionSnapshot)
    (spot emr fullDayEm : Option ℚ) (nowSec : ℕ)
    (range15m vwapDistance vixChangePct : Option ℚ) (widths : List ℤ) :
    (findIronFlyCandidate ncdf options spot emr fullDayEm nowSec range15m vwapDistance
      vixChangePct widths).ready = true →
    ∀ c ∈ (findIronFlyCandidate ncdf options spot emr fullDayEm nowSec range15m
      vwapDistance vixChangePct widths).criteria, c.passed = true := by
  unfold findIronFlyCandidate
  split
  · intro h
    simp [flyNotReady] at h
  · rename_i sp
    split
    · intro h
      simp [flyNotReady] at h
    · rename_i emx em
      split
      · intro h
        simp [flyNotReady] at h
      · split
        · intro h
          simp [flyNotReady] at h
        · dsimp only
          split
          · intro h
            simp [flyNotReady] at h
          · rename_i hem hw hg
            have hgempty : flyGateReasons nowSec vwapDistance range15m vixChangePct em = [] := by
              apply eq_nil_of_isEmpty_true
              cases hx : (flyGateReasons nowSec vwapDistance range15m vixChangePct em).isEmpty
              · rw [hx] at hg
                exact absurd rfl hg
              · rfl
            have hparts := hgempty
            unfold flyGateReasons at hparts
            rw [List.append_eq_nil, List.append_eq_nil, List.append_eq_nil] at hparts
            obtain ⟨⟨⟨htime, hvwap⟩, hrange⟩, hvix⟩ := hparts
            have htime' := ite_nil_eq_nil_imp htime
            have hvwap' := ite_nil_eq_nil_imp hvwap
            have hrange' := ite_nil_eq_nil_imp hrange
            have hvix' := ite_nil_eq_nil_imp hvix
            split
            · intro h
              simp [flyNotReady] at h
            · split
              · rename_i shortCall shortPut heqC heqP
                split
                · intro h
                  simp [flyNotReady] at h
                · rename_i hliqpass
                  split
                  · intro h
                    simp [flyNotReady] at h
                  · rename_i cands c cs hcands
                    intro _
                    have hliq : (isLiquidFly shortCall && isLiquidFly shortPut) = true := by
                      cases hx : (isLiquidFly shortCall && isLiquidFly shortPut)
                      · rw [hx] at hliqpass
                        exact absurd rfl hliqpass
                      · rfl
                    intro cr hcr
                    simp only [flyGateCriteria, condorCritSpot, condorCritEmr, criterion,
                      List.mem_append, List.mem_cons, List.not_mem_nil, or_false] at hcr
                    rcases hcr with ((rfl | rfl | rfl) | (rfl | rfl | rfl | rfl)) |
                      (rfl | rfl | rfl | rfl) <;>
                      simp [htime', hvwap', hrange', hvix', hliq, hcands]
              · intro h
                simp [flyNotReady] at h

/-- C1: whenever the iron condor or iron fly generator returns ready=true,
every entry of the returned criteria checklist has passed=true. -/
theorem ready_candidates_pass_all_criteria :
    (∀ (ncdf : ℚ → ℚ) (options : List OptionSnapshot) (spot emr fullDayEm : Option ℚ)
      (widths : List ℤ),
      (findIronCondorCandidate ncdf options spot emr fullDayEm widths).ready = true →
      ∀ c ∈ (findIronCondorCandidate ncdf options spot emr fullDayEm widths).criteria,
        c.passed = true) ∧
    (∀ (ncdf : ℚ → ℚ) (options : List OptionSnapshot) (spot emr fullDayEm : Option ℚ)
      (nowSec : ℕ) (range15m vwapDistance vixChangePct : Option ℚ) (widths : List ℤ),
      (findIronFlyCandidate ncdf options spot emr fullDayEm nowSec range15m vwapDistance
        vixChangePct widths).ready = true →
      ∀ c ∈ (findIronFlyCandidate ncdf options spot emr fullDayEm nowSec range15m
        vwapDistance vixChangePct widths).criteria, c.passed = true) :=
  ⟨condor_ready_all_criteria_passed, fly_ready_all_criteria_passed⟩

/-- Chain for a ready iron fly: ATM strike 6000 with liquid short legs and
wings 20 points away. -/
def flyReadyOptions : List OptionSnapshot :=
  [mkOpt "C" 6000 (some (95/10)) (some (105/10)) (some 10) none,
    mkOpt "P" 6000 (some (95/10)) (some (105/10)) (some 10) none,
    mkOpt "P" 5980 none none (some 2) none,
    mkOpt "C" 6020 none none (some 2) none]

set_option maxRecDepth 4000 in
unseal Rat.add Rat.mul Rat.sub Rat.inv in
/-- Witness for C1 at a ready condor chain and a ready fly chain. -/
theorem ready_candidates_criteria_witness :
    (∀ c ∈ (findIronCondorCandidate (fun _ => 0) scenario1Options (some 6000) (some 20)
      none [50]).criteria, c.passed = true) ∧
    (∀ c ∈ (findIronFlyCandidate (fun _ => 0) flyReadyOptions (some 6000) (some 20) none
      36000 (some 2) (some 1) none [20]).criteria, c.passed = true) :=
  ⟨ready_candidates_pass_all_criteria.1 (fun _ => 0) scenario1Options (some 6000) (some 20)
      none [50] (by decide),
    ready_candidates_pass_all_criteria.2 (fun _ => 0) flyReadyOptions (some 6000) (some 20)
      none 36000 (some 2) (some 1) none [20] (by decide)⟩

lemma emrBand_eq (k e : ℚ) (he : e ≠ 0) : emrBand k (some e) = some (k * e) := by
  unfold emrBand
  dsimp only
  rw [if_neg he]

lemma confRatio_eq (v t : ℚ) (ht : t ≠ 0) (up : Bool) :
    confidenceRatio (some v) (some t) up =
      if up then (if t ≤ v then 1 else max 0 (v / t))
      else (if v ≤ t then 1 else max 0 (t / v)) := by
  unfold confidenceRatio
  dsimp only
  rw [if_neg ht]

lemma confRatio_le_one (v t : ℚ) (ht : 0 < t) (up : Bool) :
    confidenceRatio (some v) (some t) up ≤ 1 := by
  rw [confRatio_eq v t (ne_of_gt ht)]
  cases up with
  | true =>
    rw [if_pos rfl]
    split
    · exact le_refl 1
    · rename_i hv
      push_neg at hv
      refine max_le (by norm_num) ?_
      rw [div_le_one ht]
      exact le_of_lt hv
  | false =>
    rw [if_neg (by simp)]
    split
    · exact le_refl 1
    · rename_i hv
      push_neg at hv
      refine max_le (by norm_num) ?_
      rw [div_le_one (lt_trans ht hv)]
      exact le_of_lt hv

lemma confRatio_anti (t v1 v2 : ℚ) (ht : 0 < t) (h : v1 ≤ v2) :
    confidenceRatio (some v2) (some t) false ≤ confidenceRatio (some v1) (some t) false := by
  rw [confRatio_eq v2 t (ne_of_gt ht), confRatio_eq v1 t (ne_of_gt ht)]
  simp only [Bool.false_eq_true, if_false]
  by_cases h1 : v1 ≤ t
  · rw [if_pos h1]
    split
    · exact le_refl 1
    · rename_i hv
      push_neg at hv
      refine max_le (by norm_num) ?_
      rw [div_le_one (lt_trans ht hv)]
      exact le_of_lt hv
  · push_neg at h1
    have hv1 : 0 < v1 := lt_trans ht h1
    have hv2 : 0 < v2 := lt_of_lt_of_le hv1 h
    rw [if_neg (not_le.mpr h1), if_neg (not_le.mpr (lt_of_lt_of_le h1 h))]
    refine max_le_max (le_refl 0) ?_
    rw [div_le_div_iff₀ hv2 hv1]
    exact mul_le_mul_of_nonneg_left h (le_of_lt ht)

lemma confRatio_mono (t v1 v2 : ℚ) (ht : 0 < t) (h : v1 ≤ v2) :
    confidenceRatio (some v1) (some t) true ≤ confidenceRatio (some v2) (some t) true := by
  rw [confRatio_eq v1 t (ne_of_gt ht), confRatio_eq v2 t (ne_of_gt ht)]
  simp only [eq_self_iff_true, if_true]
  by_cases h2 : t ≤ v2
  · rw [if_pos h2]
    split
    · exact le_refl 1
    · rename_i hv
      push_neg at hv
      refine max_le (by norm_num) ?_
      rw [div_le_one ht]
      exact le_of_lt hv
  · push_neg at h2
    rw [if_neg (not_le.mpr h2), if_neg (not_le.mpr (lt_of_le_of_lt h h2))]
    refine max_le_max (le_refl 0) ?_
    rw [div_le_div_iff₀ ht ht]
    exact mul_le_mul_of_nonneg_right h (le_of_lt ht)

lemma clamp01_mono {a b : ℚ} (h : a ≤ b) : max 0 (min 1 a) ≤ max 0 (min 1 b) :=
  max_le_max (le_refl 0) (min_le_min (le_refl 1) h)

lemma chopRange_eq (r e : ℚ) (he : 0 < e) :
    chopRangeScore (some r) (some e) =
      if (30/100 : ℚ) * e < r ∧ r ≤ (45/100 : ℚ) * e then 1
      else if r ≤ (30/100 : ℚ) * e then max 0 (r / ((30/100 : ℚ) * e))
      else max 0 ((45/100 : ℚ) * e / r) := by
  unfold chopRangeScore
  rw [emrBand_eq _ _ (ne_of_gt he), emrBand_eq _ _ (ne_of_gt he)]
  dsimp only
  rw [if_neg (ne_of_gt (by positivity))]

lemma compressionScore_eq (emr fde r a sl vw dr : Option ℚ) (vol : Bool) (al : Option ℚ) :
    (regimeConfidence "COMPRESSION" emr fde r a sl vw dr vol al).score =
      max 0 (min 1 ((confidenceRatio r (emrBand (30/100) emr) false +
        confidenceRatio a (some 6) false +
        confidenceRatio (sl.map (fun x => |x|)) (some (15/100)) false +
        confidenceRatio vw (emrBand (20/100) emr) false) / 4)) := by
  unfold regimeConfidence regimeComponents
  rw [if_pos rfl]
  dsimp only [List.sum_cons, List.sum_nil, List.length_cons, List.length_nil]
  norm_num
  ring_nf

lemma chopScore_eq (emr fde r a sl vw dr : Option ℚ) (vol : Bool) (al : Option ℚ) :
    (regimeConfidence "CHOP" emr fde r a sl vw dr vol al).score =
      max 0 (min 1 ((chopRangeScore r emr +
        confidenceRatio (sl.map (fun x => |x|)) (some (20/100)) false +
        confidenceRatio vw (emrBand (40/100) emr) false) / 3)) := by
  unfold regimeConfidence regimeComponents
  rw [if_neg (by decide), if_pos rfl]
  dsimp only [List.sum_cons, List.sum_nil, List.length_cons, List.length_nil]
  norm_num
  ring_nf

set_option maxHeartbeats 1000000 in
lemma trendScore_eq (regime : String) (h : regime = "TREND_UP" ∨ regime = "TREND_DOWN")
    (emr fde r a sl vw dr : Option ℚ) (vol : Bool) (al : Option ℚ) :
    (regimeConfidence regime emr fde r a sl vw dr vol al).score =
      max 0 (min 1 ((confidenceRatio (sl.map (fun x => |x|)) (some (20/100)) true +
        confidenceRatio vw (emrBand (60/100) emr) false +
        confidenceRatio r (emrBand (60/100) emr) false +
        max 0 (min 1 (al.getD 0))) / 4)) := by
  unfold regimeConfidence regimeComponents
  rcases h with rfl | rfl <;>
  · rw [if_neg (by decide), if_neg (by decide), if_pos (by decide)]
    dsimp only [List.sum_cons, List.sum_nil, List.length_cons, List.length_nil]
    norm_num
    ring_nf

set_option maxHeartbeats 1000000 in
lemma expansionScore_eq (e f rv dv : ℚ) (he : e ≠ 0) (hf : f ≠ 0)
    (a sl vw : Option ℚ) (vol : Bool) (al : Option ℚ) :
    (regimeConfidence "EXPANSION" (some e) (some f) (some rv) a sl vw (some dv) vol al).score =
      max 0 (min 1 (((if vol then (1 : ℚ) else 0) +
        max 0 (min 1 (rv / ((45/100) * e))) +
        max 0 (min 1 (dv / ((60/100) * f)))) / 3)) := by
  unfold regimeConfidence regimeComponents
  rw [if_neg (by decide), if_neg (by decide), if_neg (by decide), if_pos rfl]
  dsimp only [List.sum_cons, List.sum_nil, List.length_cons, List.length_nil]
  rw [if_neg he, if_neg hf]
  norm_num
  ring_nf

lemma chopRange_mono_below (e r1 r2 : ℚ) (he : 0 < e) (h12 : r1 ≤ r2)
    (h2 : r2 ≤ (30/100) * e) :
    chopRangeScore (some r1) (some e) ≤ chopRangeScore (some r2) (some e) := by
  rw [chopRange_eq _ _ he, chopRange_eq _ _ he]
  have hl : (0 : ℚ) < (30/100) * e := by positivity
  have h1 : r1 ≤ (30/100) * e := le_trans h12 h2
  rw [if_neg (fun hc => (not_le.mpr hc.1) h1), if_pos h1,
    if_neg (fun hc => (not_le.mpr hc.1) h2), if_pos h2]
  refine max_le_max (le_refl 0) ?_
  rw [div_le_div_iff₀ hl hl]
  exact mul_le_mul_of_nonneg_right h12 (le_of_lt hl)

lemma chopRange_anti_above (e r1 r2 : ℚ) (he : 0 < e) (h1 : (45/100) * e < r1)
    (h12 : r1 ≤ r2) :
    chopRangeScore (some r2) (some e) ≤ chopRangeScore (some r1) (some e) := by
  rw [chopRange_eq _ _ he, chopRange_eq _ _ he]
  have hu : (0 : ℚ) < (45/100) * e := by positivity
  have h2 : (45/100) * e < r2 := lt_of_lt_of_le h1 h12
  have hband : (30/100 : ℚ) * e ≤ (45/100) * e := by linarith
  have hr1pos : (0 : ℚ) < r1 := lt_trans hu h1
  have hr2pos : (0 : ℚ) < r2 := lt_trans hu h2
  rw [if_neg (fun hc => (not_le.mpr h2) hc.2),
    if_neg (not_le.mpr (lt_of_le_of_lt hband h2)),
    if_neg (fun hc => (not_le.mpr h1) hc.2),
    if_neg (not_le.mpr (lt_of_le_of_lt hband h1))]
  refine max_le_max (le_refl 0) ?_
  rw [div_le_div_iff₀ hr2pos hr1pos]
  exact mul_le_mul_of_nonneg_left h12 (le_of_lt hu)

set_option maxHeartbeats 1000000 in
/-- C7: the regime confidence score is monotonic input-by-input: moving any
single input further inside the classified regime's threshold band (lower
range / ATR / slope magnitude / VWAP distance for COMPRESSION, range toward
the CHOP band and lower slope / VWAP distance for CHOP, larger slope
magnitude and smaller VWAP distance / range plus larger alignment for the
trend regimes, larger expansion ratios and the volatility flag for
EXPANSION) never decreases the score, holding the other inputs fixed. -/
theorem regime_confidence_monotone :
    (∀ (e : ℚ) (fde a sl vw dr : Option ℚ) (vol : Bool) (al : Option ℚ) (r1 r2 : ℚ),
      0 < e → r1 ≤ r2 →
      (regimeConfidence "COMPRESSION" (some e) fde (some r2) a sl vw dr vol al).score ≤
      (regimeConfidence "COMPRESSION" (some e) fde (some r1) a sl vw dr vol al).score) ∧
    (∀ (emr fde r sl vw dr : Option ℚ) (vol : Bool) (al : Option ℚ) (a1 a2 : ℚ),
      a1 ≤ a2 →
      (regimeConfidence "COMPRESSION" emr fde r (some a2) sl vw dr vol al).score ≤
      (regimeConfidence "COMPRESSION" emr fde r (some a1) sl vw dr vol al).score) ∧
    (∀ (emr fde r a vw dr : Option ℚ) (vol : Bool) (al : Option ℚ) (s1 s2 : ℚ),
      |s1| ≤ |s2| →
      (regimeConfidence "COMPRESSION" emr fde r a (some s2) vw dr vol al).score ≤
      (regimeConfidence "COMPRESSION" emr fde r a (some s1) vw dr vol al).score) ∧
    (∀ (e : ℚ) (fde r a sl dr : Option ℚ) (vol : Bool) (al : Option ℚ) (v1 v2 : ℚ),
      0 < e → v1 ≤ v2 →
      (regimeConfidence "COMPRESSION" (some e) fde r a sl (some v2) dr vol al).score ≤
      (regimeConfidence "COMPRESSION" (some e) fde r a sl (some v1) dr vol al).score) ∧
    (∀ (emr fde r a vw dr : Option ℚ) (vol : Bool) (al : Option ℚ) (s1 s2 : ℚ),
      |s1| ≤ |s2| →
      (regimeConfidence "CHOP" emr fde r a (some s2) vw dr vol al).score ≤
      (regimeConfidence "CHOP" emr fde r a (some s1) vw dr vol al).score) ∧
    (∀ (e : ℚ) (fde r a sl dr : Option ℚ) (vol : Bool) (al : Option ℚ) (v1 v2 : ℚ),
      0 < e → v1 ≤ v2 →
      (regimeConfidence "CHOP" (some e) fde r a sl (some v2) dr vol al).score ≤
      (regimeConfidence "CHOP" (some e) fde r a sl (some v1) dr vol al).score) ∧
    (∀ (e : ℚ) (fde a sl vw dr : Option ℚ) (vol : Bool) (al : Option ℚ) (r1 r2 : ℚ),
      0 < e → r1 ≤ r2 → r2 ≤ (30/100) * e →
      (regimeConfidence "CHOP" (some e) fde (some r1) a sl vw dr vol al).score ≤
      (regimeConfidence "CHOP" (some e) fde (some r2) a sl vw dr vol al).score) ∧
    (∀ (e : ℚ) (fde a sl vw dr : Option ℚ) (vol : Bool) (al : Option ℚ) (r1 r2 : ℚ),
      0 < e → (45/100) * e < r1 → r1 ≤ r2 →
      (regimeConfidence "CHOP" (some e) fde (some r2) a sl vw dr vol al).score ≤
      (regimeConfidence "CHOP" (some e) fde (some r1) a sl vw dr vol al).score) ∧
    (∀ (rg : String), rg = "TREND_UP" ∨ rg = "TREND_DOWN" →
      ∀ (emr fde r a vw dr : Option ℚ) (vol : Bool) (al : Option ℚ) (s1 s2 : ℚ),
      |s1| ≤ |s2| →
      (regimeConfidence rg emr fde r a (some s1) vw dr vol al).score ≤
      (regimeConfidence rg emr fde r a (some s2) vw dr vol al).score) ∧
    (∀ (rg : String), rg = "TREND_UP" ∨ rg = "TREND_DOWN" →
      ∀ (e : ℚ) (fde r a sl dr : Option ℚ) (vol : Bool) (al : Option ℚ) (v1 v2 : ℚ),
      0 < e → v1 ≤ v2 →
      (regimeConfidence rg (some e) fde r a sl (some v2) dr vol al).score ≤
      (regimeConfidence rg (some e) fde r a sl (some v1) dr vol al).score) ∧
    (∀ (rg : String), rg = "TREND_UP" ∨ rg = "TREND_DOWN" →
      ∀ (e : ℚ) (fde a sl vw dr : Option ℚ) (vol : Bool) (al : Option ℚ) (r1 r2 : ℚ),
      0 < e → r1 ≤ r2 →
      (regimeConfidence rg (some e) fde (some r2) a sl vw dr vol al).score ≤
      (regimeConfidence rg (some e) fde (some r1) a sl vw dr vol al).score) ∧
    (∀ (rg : String), rg = "TREND_UP" ∨ rg = "TREND_DOWN" →
      ∀ (emr fde r a sl vw dr : Option ℚ) (vol : Bool) (a1 a2 : ℚ),
      a1 ≤ a2 →
      (regimeConfidence rg emr fde r a sl vw dr vol (some a1)).score ≤
      (regimeConfidence rg emr fde r a sl vw dr vol (some a2)).score) ∧
    (∀ (e f : ℚ) (a sl vw : Option ℚ) (vol : Bool) (al : Option ℚ) (dv r1 r2 : ℚ),
      0 < e → 0 < f → r1 ≤ r2 →
      (regimeConfidence "EXPANSION" (some e) (some f) (some r1) a sl vw (some dv) vol
        al).score ≤
      (regimeConfidence "EXPANSION" (some e) (some f) (some r2) a sl vw (some dv) vol
        al).score) ∧
    (∀ (e f : ℚ) (a sl vw : Option ℚ) (vol : Bool) (al : Option ℚ) (rv d1 d2 : ℚ),
      0 < e → 0 < f → d1 ≤ d2 →
      (regimeConfidence "EXPANSION" (some e) (some f) (some rv) a sl vw (some d1) vol
        al).score ≤
      (regimeConfidence "EXPANSION" (some e) (some f) (some rv) a sl vw (some d2) vol
        al).score) ∧
    (∀ (e f : ℚ) (a sl vw : Option ℚ) (al : Option ℚ) (rv dv : ℚ),
      0 < e → 0 < f →
      (regimeConfidence "EXPANSION" (some e) (some f) (some rv) a sl vw (some dv) false
        al).score ≤
      (regimeConfidence "EXPANSION" (some e) (some f) (some rv) a sl vw (some dv) true
        al).score) := by
  refine ⟨?_, ?_, ?_, ?_, ?_, ?_, ?_, ?_, ?_, ?_, ?_, ?_, ?_, ?_, ?_⟩
  · intro e fde a sl vw dr vol al r1 r2 he h12
    rw [compressionScore_eq, compressionScore_eq]
    apply clamp01_mono
    rw [emrBand_eq _ _ (ne_of_gt he)]
    have key := confRatio_anti ((30/100) * e) r1 r2 (mul_pos (by norm_num) he) h12
    linarith
  · intro emr fde r sl vw dr vol al a1 a2 h12
    rw [compressionScore_eq, compressionScore_eq]
    apply clamp01_mono
    have key := confRatio_anti 6 a1 a2 (by norm_num) h12
    linarith
  · intro emr fde r a vw dr vol al s1 s2 h12
    rw [compressionScore_eq, compressionScore_eq]
    apply clamp01_mono
    simp only [Option.map_some']
    have key := confRatio_anti (15/100) |s1| |s2| (by norm_num) h12
    linarith
  · intro e fde r a sl dr vol al v1 v2 he h12
    rw [compressionScore_eq, compressionScore_eq]
    apply clamp01_mono
    rw [emrBand_eq (20/100) e (ne_of_gt he)]
    have key := confRatio_anti ((20/100) * e) v1 v2 (mul_pos (by norm_num) he) h12
    linarith
  · intro emr fde r a vw dr vol al s1 s2 h12
    rw [chopScore_eq, chopScore_eq]
    apply clamp01_mono
    simp only [Option.map_some']
    have key := confRatio_anti (20/100) |s1| |s2| (by norm_num) h12
    linarith
  · intro e fde r a sl dr vol al v1 v2 he h12
    rw [chopScore_eq, chopScore_eq]
    apply clamp01_mono
    rw [emrBand_eq _ _ (ne_of_gt he)]
    have key := confRatio_anti ((40/100) * e) v1 v2 (mul_pos (by norm_num) he) h12
    linarith
  · intro e fde a sl vw dr vol al r1 r2 he h12 h2
    rw [chopScore_eq, chopScore_eq]
    apply clamp01_mono
    have key := chopRange_mono_below e r1 r2 he h12 h2
    linarith
  · intro e fde a sl vw dr vol al r1 r2 he h1 h12
    rw [chopScore_eq, chopScore_eq]
    apply clamp01_mono
    have key := chopRange_anti_above e r1 r2 he h1 h12
    linarith
  · intro rg hrg emr fde r a vw dr vol al s1 s2 h12
    rw [trendScore_eq rg hrg, trendScore_eq rg hrg]
    apply clamp01_mono
    simp only [Option.map_some']
    have key := confRatio_mono (20/100) |s1| |s2| (by norm_num) h12
    linarith
  · intro rg hrg e fde r a sl dr vol al v1 v2 he h12
    rw [trendScore_eq rg hrg, trendScore_eq rg hrg]
    apply clamp01_mono
    rw [emrBand_eq _ _ (ne_of_gt he)]
    have key := confRatio_anti ((60/100) * e) v1 v2 (mul_pos (by norm_num) he) h12
    linarith
  · intro rg hrg e fde a sl vw dr vol al r1 r2 he h12
    rw [trendScore_eq rg hrg, trendScore_eq rg hrg]
    apply clamp01_mono
    rw [emrBand_eq _ _ (ne_of_gt he)]
    have key := confRatio_anti ((60/100) * e) r1 r2 (mul_pos (by norm_num) he) h12
    linarith
  · intro rg hrg emr fde r a sl vw dr vol a1 a2 h12
    rw [trendScore_eq rg hrg, trendScore_eq rg hrg]
    apply clamp01_mono
    simp only [Option.getD_some]
    have key := clamp01_mono h12
    linarith
  · intro e f a sl vw vol al dv r1 r2 he hf h12
    rw [expansionScore_eq e f r1 dv (ne_of_gt he) (ne_of_gt hf),
      expansionScore_eq e f r2 dv (ne_of_gt he) (ne_of_gt hf)]
    apply clamp01_mono
    have hc : (0 : ℚ) < (45/100) * e := mul_pos (by norm_num) he
    have key : max 0 (min 1 (r1 / ((45/100) * e))) ≤ max 0 (min 1 (r2 / ((45/100) * e))) := by
      apply clamp01_mono
      rw [div_le_div_iff₀ hc hc]
      exact mul_le_mul_of_nonneg_right h12 (le_of_lt hc)
    linarith
  · intro e f a sl vw vol al rv d1 d2 he hf h12
    rw [expansionScore_eq e f rv d1 (ne_of_gt he) (ne_of_gt hf),
      expansionScore_eq e f rv d2 (ne_of_gt he) (ne_of_gt hf)]
    apply clamp01_mono
    have hc : (0 : ℚ) < (60/100) * f := mul_pos (by norm_num) hf
    have key : max 0 (min 1 (d1 / ((60/100) * f))) ≤ max 0 (min 1 (d2 / ((60/100) * f))) := by
      apply clamp01_mono
      rw [div_le_div_iff₀ hc hc]
      exact mul_le_mul_of_nonneg_right h12 (le_of_lt hc)
    linarith
  · intro e f a sl vw al rv dv he hf
    rw [expansionScore_eq e f rv dv (ne_of_gt he) (ne_of_gt hf),
      expansionScore_eq e f rv dv (ne_of_gt he) (ne_of_gt hf)]
    apply clamp01_mono
    simp only [Bool.false_eq_true, if_false, if_true]
    linarith

/-- Witness for C7: the COMPRESSION score at a tighter 15-minute range is at
least the score at a wider one, at concrete inputs. -/
theorem regime_confidence_monotone_witness :
    (regimeConfidence "COMPRESSION" (some 20) none (some 6) (some 2) (some (1/10))
      (some 1) none false none).score ≤
    (regimeConfidence "COMPRESSION" (some 20) none (some 3) (some 2) (some (1/10))
      (some 1) none false none).score :=
  regime_confidence_monotone.1 20 none (some 2) (some (1/10)) (some 1) none false none 3 6
    (by norm_num) (by norm_num)
